import Mathlib

/-!
Verification of the goes2go core: the scan-angle / geodetic coordinate
transforms and visibility check (`goes2go/tools.py`), the GLM field-of-view
polygon (`goes2go/accessors.py`), and the catalog nearest-time / range
selection logic (`goes2go/data.py`).

Machine floats are embedded as real numbers; numpy trigonometric functions
become the corresponding `Real` functions.  The `numpy` error raised by
`lat_lon_to_scan_angles` and the exceptions raised inside
`goes_nearesttime` are embedded with `Except`.
-/

open Real

/-- Projection metadata carried by the `goes_imager_projection` variable of a
GOES file (`tools.py` reads these four attributes). -/
structure GoesImagerProjection where
  semi_major_axis : ℝ
  semi_minor_axis : ℝ
  perspective_point_height : ℝ
  longitude_of_projection_origin : ℝ

/-- numpy `np.radians`: degrees to radians. -/
noncomputable def npRadians (d : ℝ) : ℝ := d * (Real.pi / 180)

/-- numpy `np.degrees`: radians to degrees. -/
noncomputable def npDegrees (r : ℝ) : ℝ := r * (180 / Real.pi)

/-- `tools.py` line 221 / 282: `H = perspective_point_height + r_eq`. -/
def Hof (p : GoesImagerProjection) : ℝ :=
  p.perspective_point_height + p.semi_major_axis

/-- `tools.py` line 222 / 284: `lambda_0 = np.radians(longitude_of_projection_origin)`. -/
noncomputable def lambda0 (p : GoesImagerProjection) : ℝ :=
  npRadians p.longitude_of_projection_origin

/-- Quadratic coefficient `a` of the line-of-sight intersection
(`tools.py` lines 226-228). -/
noncomputable def aCoef (p : GoesImagerProjection) (x y : ℝ) : ℝ :=
  Real.sin x ^ 2 +
    Real.cos x ^ 2 *
      (Real.cos y ^ 2 +
        p.semi_major_axis ^ 2 / p.semi_minor_axis ^ 2 * Real.sin y ^ 2)

/-- Quadratic coefficient `b` (`tools.py` line 229). -/
noncomputable def bCoef (p : GoesImagerProjection) (x y : ℝ) : ℝ :=
  -2 * Hof p * Real.cos x * Real.cos y

/-- Quadratic coefficient `c` (`tools.py` line 230). -/
def cCoef (p : GoesImagerProjection) : ℝ :=
  Hof p ^ 2 - p.semi_major_axis ^ 2

/-- Distance from the satellite to the viewed point
(`tools.py` lines 232-234): `r_s = (-b - sqrt(b^2 - 4 a c)) / (2 a)`. -/
noncomputable def rsOf (p : GoesImagerProjection) (x y : ℝ) : ℝ :=
  (-bCoef p x y - Real.sqrt (bCoef p x y ^ 2 - 4 * aCoef p x y * cCoef p)) /
    (2 * aCoef p x y)

/-- Satellite-frame coordinate `s_x` (`tools.py` line 236). -/
noncomputable def sxF (p : GoesImagerProjection) (x y : ℝ) : ℝ :=
  rsOf p x y * Real.cos x * Real.cos y

/-- Satellite-frame coordinate `s_y` (`tools.py` line 237). -/
noncomputable def syF (p : GoesImagerProjection) (x y : ℝ) : ℝ :=
  -rsOf p x y * Real.sin x

/-- Satellite-frame coordinate `s_z` (`tools.py` line 238). -/
noncomputable def szF (p : GoesImagerProjection) (x y : ℝ) : ℝ :=
  rsOf p x y * Real.cos x * Real.sin y

/-- Geodetic latitude in radians produced by the forward transform
(`tools.py` lines 240-242). -/
noncomputable def latRadF (p : GoesImagerProjection) (x y : ℝ) : ℝ :=
  Real.arctan
    (p.semi_major_axis ^ 2 / p.semi_minor_axis ^ 2 *
      (szF p x y / Real.sqrt ((Hof p - sxF p x y) ^ 2 + syF p x y ^ 2)))

/-- Longitude in radians produced by the forward transform (`tools.py` line 243). -/
noncomputable def lonRadF (p : GoesImagerProjection) (x y : ℝ) : ℝ :=
  lambda0 p - Real.arctan (syF p x y / (Hof p - sxF p x y))

/-- `tools.py` `scan_angles_to_lat_lon`: converts scan angles `(x, y)` to a
`(latitude, longitude)` pair, in decimal degrees when the flag is set
(the Python default) and in radians otherwise. -/
noncomputable def scan_angles_to_lat_lon (x y : ℝ) (p : GoesImagerProjection)
    (decimal_coordinates : Bool) : ℝ × ℝ :=
  if decimal_coordinates then
    (npDegrees (latRadF p x y), npDegrees (lonRadF p x y))
  else
    (latRadF p x y, lonRadF p x y)

/-- `tools.py` line 283: the hard-coded eccentricity constant
`e = 0.0818191910435` of the GRS 1980 ellipsoid. -/
noncomputable def grs80Ecc : ℝ := 0.0818191910435

/-- Geocentric latitude `phi_c` (`tools.py` line 286). -/
noncomputable def phi_c (p : GoesImagerProjection) (latR : ℝ) : ℝ :=
  Real.arctan (p.semi_minor_axis ^ 2 / p.semi_major_axis ^ 2 * Real.tan latR)

/-- Geocentric distance `r_c` to the point on the ellipsoid
(`tools.py` line 287), using the hard-coded constant `grs80Ecc`. -/
noncomputable def r_cOf (p : GoesImagerProjection) (latR : ℝ) : ℝ :=
  p.semi_minor_axis /
    Real.sqrt (1 - grs80Ecc ^ 2 * Real.cos (phi_c p latR) ^ 2)

/-- Satellite-frame coordinate `s_x` of the inverse transform
(`tools.py` line 289). -/
noncomputable def sxI (p : GoesImagerProjection) (latR lonR : ℝ) : ℝ :=
  Hof p - r_cOf p latR * Real.cos (phi_c p latR) * Real.cos (lonR - lambda0 p)

/-- Satellite-frame coordinate `s_y` of the inverse transform
(`tools.py` line 290). -/
noncomputable def syI (p : GoesImagerProjection) (latR lonR : ℝ) : ℝ :=
  -(r_cOf p latR) * Real.cos (phi_c p latR) * Real.sin (lonR - lambda0 p)

/-- Satellite-frame coordinate `s_z` of the inverse transform
(`tools.py` line 291). -/
noncomputable def szI (p : GoesImagerProjection) (latR : ℝ) : ℝ :=
  r_cOf p latR * Real.sin (phi_c p latR)

/-- The visibility condition tested on `tools.py` line 294: the point is NOT
visible from the satellite when `H*(H - s_x) < s_y^2 + (r_eq^2/r_pol^2)*s_z^2`. -/
def notVisible (p : GoesImagerProjection) (latR lonR : ℝ) : Prop :=
  Hof p * (Hof p - sxI p latR lonR) <
    syI p latR lonR ^ 2 +
      p.semi_major_axis ^ 2 / p.semi_minor_axis ^ 2 * szI p latR ^ 2

/-- Scan angle `x` returned by the inverse transform (`tools.py` line 298). -/
noncomputable def xScanOf (p : GoesImagerProjection) (latR lonR : ℝ) : ℝ :=
  Real.arcsin
    (-(syI p latR lonR) /
      Real.sqrt (sxI p latR lonR ^ 2 + syI p latR lonR ^ 2 + szI p latR ^ 2))

/-- Scan angle `y` returned by the inverse transform (`tools.py` line 297). -/
noncomputable def yScanOf (p : GoesImagerProjection) (latR lonR : ℝ) : ℝ :=
  Real.arctan (szI p latR / sxI p latR lonR)

open Classical in
/-- `tools.py` `lat_lon_to_scan_angles` on a single point: converts geodetic
latitude/longitude (degrees when the flag is set, the Python default) to scan
angles, raising `ValueError` when the point is not visible. -/
noncomputable def lat_lon_to_scan_angles (latitude longitude : ℝ)
    (p : GoesImagerProjection) (decimal_coordinates : Bool) :
    Except String (ℝ × ℝ) :=
  let latR := if decimal_coordinates then npRadians latitude else latitude
  let lonR := if decimal_coordinates then npRadians longitude else longitude
  if notVisible p latR lonR then
    Except.error "One or more points not visible by satellite"
  else
    Except.ok (xScanOf p latR lonR, yScanOf p latR lonR)

open Classical in
/-- `tools.py` `lat_lon_to_scan_angles` on a batched (vectorized) input: the
code computes `s_x, s_y, s_z` elementwise and raises if the visibility test
fails at ANY element (`.any()` on line 294); otherwise all scan-angle pairs
are returned. -/
noncomputable def latLonToScanAnglesBatch (pts : List (ℝ × ℝ))
    (p : GoesImagerProjection) (decimal_coordinates : Bool) :
    Except String (List (ℝ × ℝ)) :=
  let conv : ℝ × ℝ → ℝ × ℝ := fun q =>
    if decimal_coordinates then (npRadians q.1, npRadians q.2) else q
  if ∃ q ∈ pts, notVisible p (conv q).1 (conv q).2 then
    Except.error "One or more points not visible by satellite"
  else
    Except.ok (pts.map fun q => (xScanOf p (conv q).1 (conv q).2,
      yScanOf p (conv q).1 (conv q).2))

/-- Eccentricity derived from the supplied semi-axes, following the words of
the spec (design note 9: "derive eccentricity from the supplied axes
`e = sqrt(1 - r_pol^2/r_eq^2)`").  This is NOT what the code does; it is the
contrast definition used to show the code never derives the eccentricity. -/
noncomputable def derivedEcc (p : GoesImagerProjection) : ℝ :=
  Real.sqrt (1 - p.semi_minor_axis ^ 2 / p.semi_major_axis ^ 2)

/-- The geocentric distance the inverse transform would compute if it derived
the eccentricity from the supplied axes (spec design note 9) instead of using
the hard-coded GRS80 constant. -/
noncomputable def r_cDerived (p : GoesImagerProjection) (latR : ℝ) : ℝ :=
  p.semi_minor_axis /
    Real.sqrt (1 - derivedEcc p ^ 2 * Real.cos (phi_c p latR) ^ 2)

/-- GLM instrument field-of-view radius in projection-plane meters
(`accessors.py` lines 221-224: `FOV_degrees = 8*2; FOV_degrees += 0.15;
FOV_radius = np.radians(FOV_degrees/2) * sat_height`). -/
noncomputable def glmFOVRadius (sat_height : ℝ) : ℝ :=
  npRadians ((8 * 2 + 0.15) / 2) * sat_height

/-- Half-width of the square cut out of the GLM disk (`accessors.py` lines
230-231: `cutout_FOV_degrees = 15/2;
cutout_FOV_length = np.radians(cutout_FOV_degrees) * sat_height`). -/
noncomputable def glmCutoutLength (sat_height : ℝ) : ℝ :=
  npRadians (15 / 2) * sat_height

/-- The planar region enclosed by the uncut GLM full-disk polygon
(`Point(0, 0).buffer(FOV_radius)` in `accessors.py` line 224): the disk of
radius `glmFOVRadius` about the origin of the projection plane. -/
def glmDisk (sat_height : ℝ) : Set (ℝ × ℝ) :=
  {q | q.1 ^ 2 + q.2 ^ 2 < glmFOVRadius sat_height ^ 2}

/-- The region enclosed by the square cutout polygon traced on
`accessors.py` lines 233-240: the axis-aligned square of half-width
`glmCutoutLength` about the origin. -/
def glmCutout (sat_height : ℝ) : Set (ℝ × ℝ) :=
  {q | |q.1| ≤ glmCutoutLength sat_height ∧ |q.2| ≤ glmCutoutLength sat_height}

/-- The region enclosed by the GLM instrument field-of-view polygon returned
by `fieldOfViewAccessor.full_disk` (`accessors.py` line 242:
`FOV_polygon = FOV_polygon.intersection(cutout)`). -/
def glmFOVPolygon (sat_height : ℝ) : Set (ℝ × ℝ) :=
  glmDisk sat_height ∩ glmCutout sat_height

/-- One catalog entry of the observation-file listing built by
`_goes_file_df` (`data.py`): file identifier, start/end timestamps and the
band number.  Timestamps are embedded as integers (e.g. nanoseconds, the
resolution of pandas timestamps). -/
structure ObservationRecord where
  file : String
  start : Int
  end_ : Int
  band : Int
deriving DecidableEq

/-- The time-range filter of `_goes_file_df` (`data.py` line 183):
`df.loc[df.start >= start].loc[df.end <= end]`. -/
def selectRange (records : List ObservationRecord) (start end_ : Int) :
    List ObservationRecord :=
  records.filter fun r => decide (start ≤ r.start) && decide (r.end_ ≤ end_)

/-- Whether the character list starts with the given pattern. -/
def chStartsWith : List Char → List Char → Bool
  | _, [] => true
  | [], _ :: _ => false
  | a :: as, b :: bs => a == b && chStartsWith as bs

/-- Whether the pattern occurs as a contiguous substring of the character
list (models `pandas.Series.str.contains` on a plain, non-regex pattern). -/
def chContains : List Char → List Char → Bool
  | [], pat => pat.isEmpty
  | hay@(_ :: rest), pat => chStartsWith hay pat || chContains rest pat

/-- Python `str.upper()` on the characters of a string (structural version
of `String.toUpper`, so that terms evaluate by `decide`). -/
def strUpper (s : String) : String :=
  ⟨s.toList.map Char.toUpper⟩

/-- The mesoscale sub-domain filter of `goes_nearesttime` (`data.py` lines
750-751): when the upper-cased domain is `M1` or `M2`, keep only files whose
name contains `<domain>-M`. -/
def mesoFilter (d : String) (df : List ObservationRecord) :
    List ObservationRecord :=
  if strUpper d == "M1" || strUpper d == "M2" then
    df.filter fun r => chContains r.file.toList (strUpper d ++ "-M").toList
  else df

/-- Maximum of a list of integers. -/
def listMax : List Int → Option Int
  | [] => none
  | a :: as =>
    match listMax as with
    | none => some a
    | some b => some (max a b)

/-- Minimum of a list of integers. -/
def listMin : List Int → Option Int
  | [] => none
  | a :: as =>
    match listMin as with
    | none => some a
    | some b => some (min a b)

/-- The value a pandas "pad" (forward-fill) lookup selects: the largest index
value that is `≤` the target. -/
def padTime (ts : List Int) (t : Int) : Option Int :=
  listMax (ts.filter fun c => decide (c ≤ t))

/-- The value a pandas "backfill" lookup selects: the smallest index value
that is `≥` the target. -/
def backfillTime (ts : List Int) (t : Int) : Option Int :=
  listMin (ts.filter fun c => decide (t ≤ c))

/-- The start timestamp selected by
`unique_times_index.get_indexer([attime], method="nearest")` on `data.py`
line 757.  This models pandas `Index._get_nearest_indexer` for the
monotonically increasing unique index produced by
`df.sort_values("start")`/`.unique()`: it takes the pad (left) and backfill
(right) candidates and keeps the left one only when its distance is STRICTLY
smaller (`op = operator.lt` since the index is monotonic increasing), so a
tie selects the right, i.e. the later timestamp; when one side has no
candidate the other is selected, and an empty index gives no result (the
subsequent positional indexing `unique_times_index[[-1]]` raises
`IndexError`). -/
def nearestStart (ts : List Int) (t : Int) : Option Int :=
  match padTime ts t, backfillTime ts t with
  | none, none => none
  | some l, none => some l
  | none, some r => some r
  | some l, some r => if |l - t| < |r - t| then some l else some r

/-- The nearest-time selection performed by `goes_nearesttime` (`data.py`
lines 728-765), starting from the catalog records (the s3 listing):
`_goes_file_df` filters to `[attime - within, attime + within]`; then
`domain.upper()` is evaluated on the caller-supplied domain, which raises
`AttributeError` when the domain is not a string (the normalized domain
returned by `_check_param_inputs` is discarded on line 734); the mesoscale
filter is applied; the records sharing the start timestamp nearest to
`attime` are selected (raising `IndexError` on an empty listing, see
`nearestStart`); an empty result prints "no data" and returns `None`
(embedded as `Except.ok none`). -/
def goesNearesttime (records : List ObservationRecord) (attime within : Int)
    (domain : Option String) : Except String (Option (List ObservationRecord)) :=
  let df := selectRange records (attime - within) (attime + within)
  match domain with
  | none => Except.error "AttributeError"
  | some d =>
    let df2 := mesoFilter d df
    match nearestStart (df2.map fun r => r.start) attime with
    | none => Except.error "IndexError"
    | some t =>
      let g := df2.filter fun r => r.start == t
      if g.length == 0 then Except.ok none else Except.ok (some g)

/-- The candidate records a `goes_nearesttime` query works on after the
time-range filter of `_goes_file_df` and the mesoscale domain filter. -/
def nearesttimeCandidates (records : List ObservationRecord)
    (attime within : Int) (d : String) : List ObservationRecord :=
  mesoFilter d (selectRange records (attime - within) (attime + within))

/-- The round-trip property exactly as the spec states it ("for all
projection parameters P and all (x,y) within the visible disk,
`geodeticToScanAngles(scanAnglesToGeodetic(x,y,P), P) ≈ (x,y)` within 1e-9
radians"): the visible disk is expressed by the discriminant of the
line-of-sight quadratic being nonnegative together with the code's own
visibility inequality holding at the forward image, and the transforms are
applied with their default degree flags. -/
noncomputable def roundtripClaim : Prop :=
  ∀ (p : GoesImagerProjection) (x y : ℝ),
    0 < p.semi_major_axis → 0 < p.semi_minor_axis →
    0 < p.perspective_point_height →
    |x| < Real.pi / 2 → |y| < Real.pi / 2 →
    0 ≤ bCoef p x y ^ 2 - 4 * aCoef p x y * cCoef p →
    syF p x y ^ 2 + p.semi_major_axis ^ 2 / p.semi_minor_axis ^ 2 * szF p x y ^ 2 ≤
      Hof p * (Hof p - sxF p x y) →
    ∀ x' y',
      lat_lon_to_scan_angles (scan_angles_to_lat_lon x y p true).1
        (scan_angles_to_lat_lon x y p true).2 p true = Except.ok (x', y') →
      |x' - x| ≤ 1 / 10 ^ 9 ∧ |y' - y| ≤ 1 / 10 ^ 9

/-! ## Helper lemmas for the catalog selector -/

theorem listMax_mem : ∀ {l : List Int} {m : Int}, listMax l = some m → m ∈ l := by
  intro l
  induction l with
  | nil => intro m h; simp [listMax] at h
  | cons a as ih =>
    intro m h
    simp only [listMax] at h
    cases has : listMax as with
    | none =>
      rw [has] at h
      have hma : a = m := by injection h
      rw [← hma]
      exact List.mem_cons_self _ _
    | some b =>
      rw [has] at h
      have hmb : max a b = m := by injection h
      rcases le_total a b with hab | hba
      · rw [max_eq_right hab] at hmb
        rw [← hmb]
        exact List.mem_cons_of_mem _ (ih has)
      · rw [max_eq_left hba] at hmb
        rw [← hmb]
        exact List.mem_cons_self _ _

theorem listMax_eq_some : ∀ {l : List Int} {m : Int}, m ∈ l →
    (∀ c ∈ l, c ≤ m) → listMax l = some m := by
  intro l
  induction l with
  | nil => intro m hmem _; simp at hmem
  | cons a as ih =>
    intro m hmem hub
    simp only [listMax]
    rcases List.mem_cons.mp hmem with rfl | hmas
    · cases has : listMax as with
      | none => rfl
      | some b =>
        have hb : b ≤ m := hub b (List.mem_cons_of_mem _ (listMax_mem has))
        show some (max m b) = some m
        rw [max_eq_left hb]
    · have hrec : listMax as = some m :=
        ih hmas fun c hc => hub c (List.mem_cons_of_mem _ hc)
      rw [hrec]
      have hb : a ≤ m := hub a (List.mem_cons_self _ _)
      show some (max a m) = some m
      rw [max_eq_right hb]

theorem listMin_mem : ∀ {l : List Int} {m : Int}, listMin l = some m → m ∈ l := by
  intro l
  induction l with
  | nil => intro m h; simp [listMin] at h
  | cons a as ih =>
    intro m h
    simp only [listMin] at h
    cases has : listMin as with
    | none =>
      rw [has] at h
      have hma : a = m := by injection h
      rw [← hma]
      exact List.mem_cons_self _ _
    | some b =>
      rw [has] at h
      have hmb : min a b = m := by injection h
      rcases le_total a b with hab | hba
      · rw [min_eq_left hab] at hmb
        rw [← hmb]
        exact List.mem_cons_self _ _
      · rw [min_eq_right hba] at hmb
        rw [← hmb]
        exact List.mem_cons_of_mem _ (ih has)

theorem listMin_eq_some : ∀ {l : List Int} {m : Int}, m ∈ l →
    (∀ c ∈ l, m ≤ c) → listMin l = some m := by
  intro l
  induction l with
  | nil => intro m hmem _; simp at hmem
  | cons a as ih =>
    intro m hmem hlb
    simp only [listMin]
    rcases List.mem_cons.mp hmem with rfl | hmas
    · cases has : listMin as with
      | none => rfl
      | some b =>
        have hb : m ≤ b := hlb b (List.mem_cons_of_mem _ (listMin_mem has))
        show some (min m b) = some m
        rw [min_eq_left hb]
    · have hrec : listMin as = some m :=
        ih hmas fun c hc => hlb c (List.mem_cons_of_mem _ hc)
      rw [hrec]
      have hb : m ≤ a := hlb a (List.mem_cons_self _ _)
      show some (min a m) = some m
      rw [min_eq_right hb]

theorem padTime_eq_some {ts : List Int} {t a : Int} (ha : a ∈ ts) (hat : a ≤ t)
    (hmax : ∀ c ∈ ts, c ≤ t → c ≤ a) : padTime ts t = some a := by
  apply listMax_eq_some
  · exact List.mem_filter.mpr ⟨ha, by simpa using hat⟩
  · intro c hc
    have hc' := List.mem_filter.mp hc
    exact hmax c hc'.1 (by simpa using hc'.2)

theorem backfillTime_eq_some {ts : List Int} {t b : Int} (hb : b ∈ ts)
    (htb : t ≤ b) (hmin : ∀ c ∈ ts, t ≤ c → b ≤ c) :
    backfillTime ts t = some b := by
  apply listMin_eq_some
  · exact List.mem_filter.mpr ⟨hb, by simpa using htb⟩
  · intro c hc
    have hc' := List.mem_filter.mp hc
    exact hmin c hc'.1 (by simpa using hc'.2)

theorem goesNearesttime_some_eq (records : List ObservationRecord)
    (attime within : Int) (d : String) :
    goesNearesttime records attime within (some d) =
      match nearestStart
          ((nearesttimeCandidates records attime within d).map fun r => r.start)
          attime with
      | none => Except.error "IndexError"
      | some t =>
        let g := (nearesttimeCandidates records attime within d).filter
          fun r => r.start == t
        if g.length == 0 then Except.ok none else Except.ok (some g) := rfl

/-! ## Claim theorems about the catalog selector -/

/-- C6: a record is in the range-query result iff it is a catalog record
whose start timestamp is at least the window start and whose end timestamp is
at most the window end (so a record starting before the window is excluded
even when its end falls inside the window). -/
theorem selectRange_mem_iff (r : ObservationRecord)
    (records : List ObservationRecord) (s e : Int) :
    r ∈ selectRange records s e ↔ r ∈ records ∧ s ≤ r.start ∧ r.end_ ≤ e := by
  simp [selectRange, List.mem_filter]

/-- C10: `goes_nearesttime` evaluates `domain.upper()` on the caller-supplied
domain after the catalog listing, so every call with a non-string domain
(embedded as `none`) raises `AttributeError` regardless of the catalog
contents, before any nearest-time resolution. -/
theorem nearesttime_none_domain_raises (records : List ObservationRecord)
    (attime within : Int) :
    goesNearesttime records attime within none =
      Except.error "AttributeError" := rfl

/-- C4: when the time-range filter leaves zero candidate records, the
nearest-time query raises `IndexError` (pandas positional indexing of the
empty unique-times index) instead of reaching the `n == 0` "no data" branch
of `goes_nearesttime`. -/
theorem nearesttime_empty_catalog_raises (records : List ObservationRecord)
    (attime within : Int) (d : String)
    (h : selectRange records (attime - within) (attime + within) = []) :
    goesNearesttime records attime within (some d) =
      Except.error "IndexError" := by
  have hmeso : mesoFilter d [] = [] := by
    unfold mesoFilter
    split <;> rfl
  show goesNearesttime records attime within (some d) = _
  rw [goesNearesttime_some_eq]
  unfold nearesttimeCandidates
  rw [h, hmeso]
  rfl

theorem nearesttime_empty_catalog_raises_witness :
    selectRange ([] : List ObservationRecord) (0 - 1) (0 + 1) = [] ∧
      goesNearesttime [] 0 1 (some "C") = Except.error "IndexError" :=
  ⟨rfl, nearesttime_empty_catalog_raises [] 0 1 "C" rfl⟩

/-- C3 (counterexample): with two candidate records whose start timestamps 0
and 10 are equidistant from the target instant 5, the nearest-time query
returns the group of the LATER timestamp 10, not the earlier one, because
pandas `get_indexer(method="nearest")` keeps the pad candidate only when its
distance is strictly smaller. -/
theorem nearesttime_tie_counterexample :
    goesNearesttime [⟨"a", 0, 1, 1⟩, ⟨"b", 10, 11, 1⟩] 5 100 (some "C") =
        Except.ok (some [⟨"b", 10, 11, 1⟩]) ∧
      goesNearesttime [⟨"a", 0, 1, 1⟩, ⟨"b", 10, 11, 1⟩] 5 100 (some "C") ≠
        Except.ok (some [⟨"a", 0, 1, 1⟩]) := by
  have h1 : goesNearesttime [⟨"a", 0, 1, 1⟩, ⟨"b", 10, 11, 1⟩] 5 100
      (some "C") = Except.ok (some [⟨"b", 10, 11, 1⟩]) := by rfl
  refine ⟨h1, fun h => ?_⟩
  rw [h1] at h
  have h2 := Option.some.inj (Except.ok.inj h)
  injection h2 with hhead _
  injection hhead with _ hstart _ _
  exact absurd hstart (by decide)

/-- C3 (amended): after the range filter, when two distinct start timestamps
`a < b` among the candidates are equidistant from the target and every other
candidate timestamp is strictly farther, the nearest-time query selects the
group of the LATER timestamp `b`. -/
theorem nearesttime_tie_selects_later (records : List ObservationRecord)
    (attime within : Int) (d : String) (a b : Int)
    (hab : a < b) (heq : b - attime = attime - a)
    (ha : a ∈ (nearesttimeCandidates records attime within d).map
      fun r => r.start)
    (hb : b ∈ (nearesttimeCandidates records attime within d).map
      fun r => r.start)
    (hfar : ∀ c ∈ (nearesttimeCandidates records attime within d).map
      (fun r => r.start), c ≠ a → c ≠ b → b - attime < |c - attime|) :
    goesNearesttime records attime within (some d) =
      Except.ok (some ((nearesttimeCandidates records attime within d).filter
        fun r => r.start == b)) := by
  have haat : a < attime := by omega
  have hatb : attime < b := by omega
  have hpad : padTime ((nearesttimeCandidates records attime within d).map
      fun r => r.start) attime = some a := by
    apply padTime_eq_some ha (le_of_lt haat)
    intro c hc hcle
    by_cases hca : c = a
    · omega
    · by_cases hcb : c = b
      · omega
      · have hf := hfar c hc hca hcb
        have habs : |c - attime| = attime - c := by
          rw [abs_of_nonpos (by omega)]; ring
        omega
  have hback : backfillTime ((nearesttimeCandidates records attime within d).map
      fun r => r.start) attime = some b := by
    apply backfillTime_eq_some hb (le_of_lt hatb)
    intro c hc hcge
    by_cases hcb : c = b
    · omega
    · by_cases hca : c = a
      · omega
      · have hf := hfar c hc hca hcb
        have habs : |c - attime| = c - attime := abs_of_nonneg (by omega)
        omega
  have hnear : nearestStart ((nearesttimeCandidates records attime within d).map
      fun r => r.start) attime = some b := by
    unfold nearestStart
    rw [hpad, hback]
    have h1 : |a - attime| = b - attime := by
      rw [abs_of_nonpos (by omega)]; omega
    have h2 : |b - attime| = b - attime := abs_of_nonneg (by omega)
    show (if |a - attime| < |b - attime| then some a else some b) = some b
    rw [h1, h2, if_neg (lt_irrefl _)]
  obtain ⟨r, hrmem, hrstart⟩ := List.mem_map.mp hb
  have hrg : r ∈ (nearesttimeCandidates records attime within d).filter
      (fun r => r.start == b) :=
    List.mem_filter.mpr ⟨hrmem, by simp [hrstart]⟩
  have hne : (nearesttimeCandidates records attime within d).filter
      (fun r => r.start == b) ≠ [] := by
    intro h0
    rw [h0] at hrg
    exact absurd hrg (List.not_mem_nil r)
  have hlen : (((nearesttimeCandidates records attime within d).filter
      (fun r => r.start == b)).length == 0) = false := by
    rw [beq_eq_false_iff_ne]
    simpa [List.length_eq_zero] using hne
  rw [goesNearesttime_some_eq, hnear]
  show (if (((nearesttimeCandidates records attime within d).filter
      (fun r => r.start == b)).length == 0) = true then _ else _) = _
  rw [hlen]
  simp

theorem nearesttime_tie_selects_later_witness :
    ((0 : Int) < 10 ∧ (10 : Int) - 5 = 5 - 0 ∧
      (0 : Int) ∈ (nearesttimeCandidates
        [⟨"a", 0, 1, 1⟩, ⟨"b", 10, 11, 1⟩] 5 100 "C").map (fun r => r.start) ∧
      (10 : Int) ∈ (nearesttimeCandidates
        [⟨"a", 0, 1, 1⟩, ⟨"b", 10, 11, 1⟩] 5 100 "C").map (fun r => r.start)) ∧
    goesNearesttime [⟨"a", 0, 1, 1⟩, ⟨"b", 10, 11, 1⟩] 5 100 (some "C") =
      Except.ok (some [⟨"b", 10, 11, 1⟩]) :=
  ⟨⟨by decide, by decide, by decide, by decide⟩,
    (nearesttime_tie_selects_later [⟨"a", 0, 1, 1⟩, ⟨"b", 10, 11, 1⟩] 5 100 "C"
      0 10 (by decide) (by decide) (by decide) (by decide)
      (by decide)).trans (by rfl)⟩

/-- C5: the nearest-time query returns EVERY candidate record whose start
timestamp equals the selected nearest start timestamp: when the nearest
timestamp is `t` and `r` is any candidate with start `t`, the query returns
exactly the candidates filtered to start `t`, and `r` is among them. -/
theorem nearesttime_returns_full_group (records : List ObservationRecord)
    (attime within : Int) (d : String) (t : Int) (r : ObservationRecord)
    (hnear : nearestStart ((nearesttimeCandidates records attime within d).map
      fun r => r.start) attime = some t)
    (hr : r ∈ nearesttimeCandidates records attime within d)
    (hrt : r.start = t) :
    goesNearesttime records attime within (some d) =
        Except.ok (some ((nearesttimeCandidates records attime within d).filter
          fun r' => r'.start == t)) ∧
      r ∈ (nearesttimeCandidates records attime within d).filter
        fun r' => r'.start == t := by
  have hrg : r ∈ (nearesttimeCandidates records attime within d).filter
      (fun r' => r'.start == t) :=
    List.mem_filter.mpr ⟨hr, by simp [hrt]⟩
  refine ⟨?_, hrg⟩
  have hne : (nearesttimeCandidates records attime within d).filter
      (fun r' => r'.start == t) ≠ [] := by
    intro h0
    rw [h0] at hrg
    exact absurd hrg (List.not_mem_nil r)
  have hlen : (((nearesttimeCandidates records attime within d).filter
      (fun r' => r'.start == t)).length == 0) = false := by
    rw [beq_eq_false_iff_ne]
    simpa [List.length_eq_zero] using hne
  rw [goesNearesttime_some_eq, hnear]
  show (if (((nearesttimeCandidates records attime within d).filter
      (fun r' => r'.start == t)).length == 0) = true then _ else _) = _
  rw [hlen]
  simp

theorem nearesttime_returns_full_group_witness :
    (nearestStart ((nearesttimeCandidates
        [⟨"f1", 100, 101, 1⟩, ⟨"f2", 100, 101, 2⟩, ⟨"f3", 100, 101, 3⟩]
        100 10 "C").map (fun r => r.start)) 100 = some 100 ∧
      (⟨"f2", 100, 101, 2⟩ : ObservationRecord) ∈ nearesttimeCandidates
        [⟨"f1", 100, 101, 1⟩, ⟨"f2", 100, 101, 2⟩, ⟨"f3", 100, 101, 3⟩]
        100 10 "C") ∧
    goesNearesttime
        [⟨"f1", 100, 101, 1⟩, ⟨"f2", 100, 101, 2⟩, ⟨"f3", 100, 101, 3⟩]
        100 10 (some "C") =
      Except.ok (some
        [⟨"f1", 100, 101, 1⟩, ⟨"f2", 100, 101, 2⟩, ⟨"f3", 100, 101, 3⟩]) :=
  ⟨⟨by decide, by decide⟩,
    ((nearesttime_returns_full_group
      [⟨"f1", 100, 101, 1⟩, ⟨"f2", 100, 101, 2⟩, ⟨"f3", 100, 101, 3⟩]
      100 10 "C" 100 ⟨"f2", 100, 101, 2⟩ (by decide) (by decide)
      (by decide)).1).trans (by rfl)⟩

/-! ## Helper lemmas for the geometry engine -/

theorem npDegrees_npRadians (t : ℝ) : npDegrees (npRadians t) = t := by
  rw [npDegrees, npRadians]
  field_simp

theorem npRadians_npDegrees (t : ℝ) : npRadians (npDegrees t) = t := by
  rw [npDegrees, npRadians]
  field_simp

theorem phi_c_zero (p : GoesImagerProjection) : phi_c p 0 = 0 := by
  simp [phi_c, Real.tan_zero]

/-! ## Claim theorems about the coordinate transforms -/

/-- C7: the inverse transform computes the geocentric radius as
`r_c = r_pol / sqrt(1 - e^2 cos^2(phi_c))` with the hard-coded constant
`e = 0.0818191910435` for every supplied projection-parameter set; at the
equator the radius only depends on the supplied semi-minor axis (the
semi-major axis cannot influence it through a derived eccentricity), and the
result differs from what deriving the eccentricity from the supplied axes
(the spec's contrast definition `r_cDerived`) would give. -/
theorem inverse_uses_fixed_eccentricity :
    (∀ (p : GoesImagerProjection) (latR : ℝ),
        r_cOf p latR = p.semi_minor_axis /
          Real.sqrt (1 - (0.0818191910435 : ℝ) ^ 2 *
            Real.cos (phi_c p latR) ^ 2)) ∧
    (∀ p₁ p₂ : GoesImagerProjection,
        p₁.semi_minor_axis = p₂.semi_minor_axis → r_cOf p₁ 0 = r_cOf p₂ 0) ∧
    r_cOf ⟨2, 1, 2, 0⟩ 0 ≠ r_cDerived ⟨2, 1, 2, 0⟩ 0 := by
  refine ⟨fun p latR => rfl, ?_, ?_⟩
  · intro p₁ p₂ hmin
    rw [r_cOf, r_cOf, phi_c_zero, phi_c_zero, hmin]
  · have hrd : r_cDerived ⟨2, 1, 2, 0⟩ 0 = 2 := by
      rw [r_cDerived, phi_c_zero]
      have hde : derivedEcc ⟨2, 1, 2, 0⟩ ^ 2 = 3 / 4 := by
        rw [derivedEcc, Real.sq_sqrt (by norm_num)]
        norm_num
      rw [hde, Real.cos_zero]
      rw [show (1 : ℝ) - 3 / 4 * 1 ^ 2 = (1 / 2) ^ 2 by norm_num,
        Real.sqrt_sq (by norm_num)]
      norm_num
    have hrc : r_cOf ⟨2, 1, 2, 0⟩ 0 < 2 := by
      rw [r_cOf, phi_c_zero, Real.cos_zero]
      have he : grs80Ecc ^ 2 < 3 / 4 := by rw [grs80Ecc]; norm_num
      have hgt : (1 : ℝ) / 2 < Real.sqrt (1 - grs80Ecc ^ 2 * 1 ^ 2) := by
        rw [Real.lt_sqrt (by norm_num)]
        nlinarith [he]
      calc (1 : ℝ) / Real.sqrt (1 - grs80Ecc ^ 2 * 1 ^ 2)
          < 1 / (1 / 2) := by
            apply one_div_lt_one_div_of_lt (by norm_num) hgt
        _ = 2 := by norm_num
    rw [hrd]
    exact ne_of_lt hrc

theorem inverse_uses_fixed_eccentricity_witness :
    (⟨5, 1, 7, 3⟩ : GoesImagerProjection).semi_minor_axis =
        (⟨9, 1, 4, 8⟩ : GoesImagerProjection).semi_minor_axis ∧
      r_cOf ⟨5, 1, 7, 3⟩ 0 = r_cOf ⟨9, 1, 4, 8⟩ 0 :=
  ⟨rfl, inverse_uses_fixed_eccentricity.2.1 ⟨5, 1, 7, 3⟩ ⟨9, 1, 4, 8⟩ rfl⟩

/-- C8: the forward transform always takes the near intersection root
`r_s = (-b - sqrt(b^2-4ac))/(2a)` (which is at most the far root whenever
the quadratic is genuine, `a > 0`); the degree flag wraps the radian result
with `np.degrees` (degrees being the Python default); and at the example
parameters (6378137 m, 6356752.31414 m, 35786023 m, origin -75 deg) the
nadir input `x = 0, y = 0` maps to latitude 0 and longitude -75 degrees. -/
theorem forward_near_root_defaults_nadir :
    (∀ (p : GoesImagerProjection) (x y : ℝ),
        rsOf p x y =
          (-bCoef p x y -
            Real.sqrt (bCoef p x y ^ 2 - 4 * aCoef p x y * cCoef p)) /
            (2 * aCoef p x y) ∧
        (0 < aCoef p x y →
          rsOf p x y ≤
            (-bCoef p x y +
              Real.sqrt (bCoef p x y ^ 2 - 4 * aCoef p x y * cCoef p)) /
              (2 * aCoef p x y))) ∧
    (∀ (p : GoesImagerProjection) (x y : ℝ),
        scan_angles_to_lat_lon x y p true =
          (npDegrees (scan_angles_to_lat_lon x y p false).1,
            npDegrees (scan_angles_to_lat_lon x y p false).2)) ∧
    scan_angles_to_lat_lon 0 0 ⟨6378137, 6356752.31414, 35786023, -75⟩ true =
      (0, -75) := by
  refine ⟨fun p x y => ⟨rfl, fun ha => ?_⟩, fun p x y => rfl, ?_⟩
  · rw [rsOf, div_le_div_iff_of_pos_right (by linarith : (0 : ℝ) < 2 * aCoef p x y)]
    have hs := Real.sqrt_nonneg (bCoef p x y ^ 2 - 4 * aCoef p x y * cCoef p)
    linarith
  · have hsz : szF ⟨6378137, 6356752.31414, 35786023, -75⟩ 0 0 = 0 := by
      simp [szF]
    have hsy : syF ⟨6378137, 6356752.31414, 35786023, -75⟩ 0 0 = 0 := by
      simp [syF]
    have hlat : latRadF ⟨6378137, 6356752.31414, 35786023, -75⟩ 0 0 = 0 := by
      rw [latRadF, hsz]
      simp
    have hlon : lonRadF ⟨6378137, 6356752.31414, 35786023, -75⟩ 0 0 =
        lambda0 ⟨6378137, 6356752.31414, 35786023, -75⟩ := by
      rw [lonRadF, hsy]
      simp
    rw [show scan_angles_to_lat_lon 0 0
        ⟨6378137, 6356752.31414, 35786023, -75⟩ true =
        (npDegrees (latRadF ⟨6378137, 6356752.31414, 35786023, -75⟩ 0 0),
          npDegrees (lonRadF ⟨6378137, 6356752.31414, 35786023, -75⟩ 0 0))
      from rfl, hlat, hlon]
    rw [lambda0, npDegrees_npRadians]
    simp [npDegrees]

theorem forward_near_root_defaults_nadir_witness :
    (0 : ℝ) < aCoef ⟨6378137, 6356752.31414, 35786023, -75⟩ 0 0 ∧
      rsOf ⟨6378137, 6356752.31414, 35786023, -75⟩ 0 0 ≤
        (-bCoef ⟨6378137, 6356752.31414, 35786023, -75⟩ 0 0 +
          Real.sqrt (bCoef ⟨6378137, 6356752.31414, 35786023, -75⟩ 0 0 ^ 2 -
            4 * aCoef ⟨6378137, 6356752.31414, 35786023, -75⟩ 0 0 *
              cCoef ⟨6378137, 6356752.31414, 35786023, -75⟩)) /
          (2 * aCoef ⟨6378137, 6356752.31414, 35786023, -75⟩ 0 0) := by
  have ha : (0 : ℝ) < aCoef ⟨6378137, 6356752.31414, 35786023, -75⟩ 0 0 := by
    simp [aCoef]
  exact ⟨ha,
    (forward_near_root_defaults_nadir.1
      ⟨6378137, 6356752.31414, 35786023, -75⟩ 0 0).2 ha⟩

open Classical in
theorem batch_true_eq (pts : List (ℝ × ℝ)) (p : GoesImagerProjection) :
    latLonToScanAnglesBatch pts p true =
      if ∃ q ∈ pts, notVisible p (npRadians q.1) (npRadians q.2) then
        Except.error "One or more points not visible by satellite"
      else
        Except.ok (pts.map fun q =>
          (xScanOf p (npRadians q.1) (npRadians q.2),
            yScanOf p (npRadians q.1) (npRadians q.2))) := rfl

theorem npRadians_zero : npRadians 0 = 0 := by simp [npRadians]

/-- C2: the batched inverse transform raises the visibility `ValueError` iff
at least one input point violates `H*(H - s_x) >= s_y^2 + (r_eq^2/r_pol^2)*s_z^2`
(a single invisible point fails the whole call and no scan angles are
returned); the sub-satellite nadir `(lat 0, lon lambda_0)` always succeeds;
the antipodal point `(lat 0, lon lambda_0 + 180)` always raises. -/
theorem visibility_check_spec (p : GoesImagerProjection) (pts : List (ℝ × ℝ))
    (hre : 0 < p.semi_major_axis) (hrp : 0 < p.semi_minor_axis)
    (hh : 0 < p.perspective_point_height) :
    (latLonToScanAnglesBatch pts p true =
        Except.error "One or more points not visible by satellite" ↔
      ∃ q ∈ pts, notVisible p (npRadians q.1) (npRadians q.2)) ∧
    (∃ v, latLonToScanAnglesBatch
      [(0, p.longitude_of_projection_origin)] p true = Except.ok v) ∧
    latLonToScanAnglesBatch
        [(0, p.longitude_of_projection_origin + 180)] p true =
      Except.error "One or more points not visible by satellite" := by
  have hH : 0 < Hof p := by rw [Hof]; linarith
  have hsq : 0 < Real.sqrt (1 - grs80Ecc ^ 2 * Real.cos (phi_c p 0) ^ 2) := by
    rw [phi_c_zero, Real.cos_zero]
    rw [Real.sqrt_pos, grs80Ecc]
    norm_num
  have hrc : 0 < r_cOf p 0 := by
    rw [r_cOf]
    exact div_pos hrp hsq
  have hsz : szI p 0 = 0 := by
    rw [szI, phi_c_zero]
    simp
  refine ⟨?_, ?_, ?_⟩
  · rw [batch_true_eq]
    by_cases hex : ∃ q ∈ pts, notVisible p (npRadians q.1) (npRadians q.2)
    · rw [if_pos hex]
      simpa using hex
    · rw [if_neg hex]
      simp only [iff_false_intro hex, iff_false]
      intro hcontra
      exact Except.noConfusion hcontra
  · have hnv : ¬ notVisible p (npRadians 0)
        (npRadians p.longitude_of_projection_origin) := by
      rw [npRadians_zero, notVisible]
      have hsx : sxI p 0 (npRadians p.longitude_of_projection_origin) =
          Hof p - r_cOf p 0 := by
        rw [sxI, phi_c_zero, lambda0]
        simp
      have hsy : syI p 0 (npRadians p.longitude_of_projection_origin) = 0 := by
        rw [syI, phi_c_zero, lambda0]
        simp
      rw [hsx, hsy, hsz]
      intro hlt
      nlinarith [mul_pos hH hrc]
    rw [batch_true_eq, if_neg (by simpa [npRadians_zero] using hnv)]
    exact ⟨_, rfl⟩
  · have hpi : npRadians (p.longitude_of_projection_origin + 180) - lambda0 p =
        Real.pi := by
      rw [npRadians, lambda0, npRadians]
      ring
    have hnv : notVisible p (npRadians 0)
        (npRadians (p.longitude_of_projection_origin + 180)) := by
      rw [npRadians_zero, notVisible]
      have hsx : sxI p 0 (npRadians (p.longitude_of_projection_origin + 180)) =
          Hof p + r_cOf p 0 := by
        rw [sxI, phi_c_zero, hpi]
        simp [Real.cos_pi]
      have hsy : syI p 0 (npRadians (p.longitude_of_projection_origin + 180)) =
          0 := by
        rw [syI, phi_c_zero, hpi]
        simp [Real.sin_pi]
      rw [hsx, hsy, hsz]
      nlinarith [mul_pos hH hrc]
    rw [batch_true_eq, if_pos ?_]
    exact ⟨(0, p.longitude_of_projection_origin + 180), by simp,
      by simpa [npRadians_zero] using hnv⟩

theorem visibility_check_spec_witness :
    ((0 : ℝ) < 2 ∧ (0 : ℝ) < 1 ∧ (0 : ℝ) < 2) ∧
    (∃ v, latLonToScanAnglesBatch [((0 : ℝ), (0 : ℝ))]
      (⟨2, 1, 2, 0⟩ : GoesImagerProjection) true = Except.ok v) ∧
    latLonToScanAnglesBatch [((0 : ℝ), (0 : ℝ) + 180)]
        (⟨2, 1, 2, 0⟩ : GoesImagerProjection) true =
      Except.error "One or more points not visible by satellite" := by
  have h := visibility_check_spec ⟨2, 1, 2, 0⟩ [] (by norm_num) (by norm_num)
    (by norm_num)
  exact ⟨⟨by norm_num, by norm_num, by norm_num⟩, h.2.1, h.2.2⟩

theorem volume_Ioo_prod (a b c d : ℝ) :
    MeasureTheory.volume (Set.Ioo a b ×ˢ Set.Ioo c d) =
      ENNReal.ofReal (b - a) * ENNReal.ofReal (d - c) := by
  rw [MeasureTheory.Measure.volume_eq_prod, MeasureTheory.Measure.prod_prod,
    Real.volume_Ioo, Real.volume_Ioo]

/-- C9: for every satellite height, the area of the GLM field-of-view
polygon (disk intersected with the square cutout) is strictly smaller than
the area of the full uncut disk. -/
theorem glm_fov_area_lt (h : ℝ) (hh : 0 < h) :
    MeasureTheory.volume (glmFOVPolygon h) < MeasureTheory.volume (glmDisk h) := by
  have hpi := Real.pi_pos
  have hu : 0 < Real.pi / 180 * h := by positivity
  -- the witness rectangle: x between the cutout half-width and 8 deg worth
  -- of meters, y within 1 deg worth of meters
  have hwB : glmCutoutLength h < 8 * (Real.pi / 180 * h) := by
    rw [glmCutoutLength, npRadians]
    nlinarith
  have hwpos : 0 < glmCutoutLength h := by
    rw [glmCutoutLength, npRadians]
    nlinarith
  have hsub : Set.Ioo (glmCutoutLength h) (8 * (Real.pi / 180 * h)) ×ˢ
      Set.Ioo (-(Real.pi / 180 * h)) (Real.pi / 180 * h) ⊆ glmDisk h := by
    rintro q ⟨hq1, hq2⟩
    simp only [Set.mem_Ioo] at hq1 hq2
    show q.1 ^ 2 + q.2 ^ 2 < glmFOVRadius h ^ 2
    rw [glmFOVRadius, npRadians]
    nlinarith [mul_pos (sub_pos.mpr hq1.2)
        (by nlinarith : (0 : ℝ) < 8 * (Real.pi / 180 * h) + q.1),
      mul_pos (sub_pos.mpr hq2.2)
        (by nlinarith : (0 : ℝ) < Real.pi / 180 * h + q.2)]
  have hdisj : glmFOVPolygon h ⊆
      glmDisk h \ (Set.Ioo (glmCutoutLength h) (8 * (Real.pi / 180 * h)) ×ˢ
        Set.Ioo (-(Real.pi / 180 * h)) (Real.pi / 180 * h)) := by
    rintro q ⟨hqd, hqc⟩
    refine ⟨hqd, fun hqr => ?_⟩
    have hq1 : glmCutoutLength h < q.1 := hqr.1.1
    have habs : q.1 ≤ |q.1| := le_abs_self q.1
    have hc1 : |q.1| ≤ glmCutoutLength h := hqc.1
    linarith
  have hrv : MeasureTheory.volume
      (Set.Ioo (glmCutoutLength h) (8 * (Real.pi / 180 * h)) ×ˢ
        Set.Ioo (-(Real.pi / 180 * h)) (Real.pi / 180 * h)) =
      ENNReal.ofReal (8 * (Real.pi / 180 * h) - glmCutoutLength h) *
        ENNReal.ofReal (Real.pi / 180 * h - -(Real.pi / 180 * h)) :=
    volume_Ioo_prod _ _ _ _
  have hrpos : MeasureTheory.volume
      (Set.Ioo (glmCutoutLength h) (8 * (Real.pi / 180 * h)) ×ˢ
        Set.Ioo (-(Real.pi / 180 * h)) (Real.pi / 180 * h)) ≠ 0 := by
    rw [hrv]
    apply mul_ne_zero
    · simp only [ne_eq, ENNReal.ofReal_eq_zero, not_le]
      linarith
    · simp only [ne_eq, ENNReal.ofReal_eq_zero, not_le]
      linarith
  have hrfin : MeasureTheory.volume
      (Set.Ioo (glmCutoutLength h) (8 * (Real.pi / 180 * h)) ×ˢ
        Set.Ioo (-(Real.pi / 180 * h)) (Real.pi / 180 * h)) ≠ ⊤ := by
    rw [hrv]
    exact ENNReal.mul_ne_top ENNReal.ofReal_ne_top ENNReal.ofReal_ne_top
  have hRpos : 0 < glmFOVRadius h := by
    rw [glmFOVRadius, npRadians]
    nlinarith
  have hbox : glmDisk h ⊆
      Set.Ioo (-glmFOVRadius h) (glmFOVRadius h) ×ˢ
        Set.Ioo (-glmFOVRadius h) (glmFOVRadius h) := by
    intro q hq
    have hq' : q.1 ^ 2 + q.2 ^ 2 < glmFOVRadius h ^ 2 := hq
    refine ⟨Set.mem_Ioo.mpr ⟨?_, ?_⟩, Set.mem_Ioo.mpr ⟨?_, ?_⟩⟩
    · nlinarith [sq_nonneg (q.1 + glmFOVRadius h), sq_nonneg q.2]
    · nlinarith [sq_nonneg (q.1 - glmFOVRadius h), sq_nonneg q.2]
    · nlinarith [sq_nonneg (q.2 + glmFOVRadius h), sq_nonneg q.1]
    · nlinarith [sq_nonneg (q.2 - glmFOVRadius h), sq_nonneg q.1]
  have hdiskfin : MeasureTheory.volume (glmDisk h) ≠ ⊤ := by
    refine ne_top_of_le_ne_top ?_ (MeasureTheory.measure_mono hbox)
    rw [volume_Ioo_prod]
    exact ENNReal.mul_ne_top ENNReal.ofReal_ne_top ENNReal.ofReal_ne_top
  have hdiskne0 : MeasureTheory.volume (glmDisk h) ≠ 0 := by
    intro h0
    exact hrpos (le_antisymm (h0 ▸ MeasureTheory.measure_mono hsub) (zero_le _))
  calc MeasureTheory.volume (glmFOVPolygon h)
      ≤ MeasureTheory.volume (glmDisk h \
          (Set.Ioo (glmCutoutLength h) (8 * (Real.pi / 180 * h)) ×ˢ
            Set.Ioo (-(Real.pi / 180 * h)) (Real.pi / 180 * h))) :=
        MeasureTheory.measure_mono hdisj
    _ = MeasureTheory.volume (glmDisk h) - MeasureTheory.volume
          (Set.Ioo (glmCutoutLength h) (8 * (Real.pi / 180 * h)) ×ˢ
            Set.Ioo (-(Real.pi / 180 * h)) (Real.pi / 180 * h)) :=
        MeasureTheory.measure_diff hsub
          ((measurableSet_Ioo.prod measurableSet_Ioo).nullMeasurableSet) hrfin
    _ < MeasureTheory.volume (glmDisk h) :=
        ENNReal.sub_lt_self hdiskfin hdiskne0 hrpos

theorem glm_fov_area_lt_witness :
    (0 : ℝ) < 35786023 ∧
      MeasureTheory.volume (glmFOVPolygon 35786023) <
        MeasureTheory.volume (glmDisk 35786023) :=
  ⟨by norm_num, glm_fov_area_lt 35786023 (by norm_num)⟩

theorem cos_arctan_div (v w : ℝ) (hv : 0 < v) :
    Real.cos (Real.arctan (w / v)) = v / Real.sqrt (v ^ 2 + w ^ 2) := by
  rw [Real.cos_arctan]
  have h1 : 1 + (w / v) ^ 2 = (v ^ 2 + w ^ 2) / v ^ 2 := by
    field_simp
  rw [h1, Real.sqrt_div (by positivity) (v ^ 2), Real.sqrt_sq hv.le,
    one_div_div]

theorem sin_arctan_div (v w : ℝ) (hv : 0 < v) :
    Real.sin (Real.arctan (w / v)) = w / Real.sqrt (v ^ 2 + w ^ 2) := by
  rw [Real.sin_arctan]
  have h1 : 1 + (w / v) ^ 2 = (v ^ 2 + w ^ 2) / v ^ 2 := by
    field_simp
  have hs : 0 < Real.sqrt (v ^ 2 + w ^ 2) := by
    apply Real.sqrt_pos.mpr
    nlinarith [sq_nonneg w]
  rw [h1, Real.sqrt_div (by positivity) (v ^ 2), Real.sqrt_sq hv.le]
  field_simp

open Classical in
theorem single_true_eq (la lo : ℝ) (p : GoesImagerProjection) :
    lat_lon_to_scan_angles la lo p true =
      if notVisible p (npRadians la) (npRadians lo) then
        Except.error "One or more points not visible by satellite"
      else
        Except.ok (xScanOf p (npRadians la) (npRadians lo),
          yScanOf p (npRadians la) (npRadians lo)) := rfl

theorem aCoef_pos (p : GoesImagerProjection) (x y : ℝ)
    (hre : 0 < p.semi_major_axis) (hrp : 0 < p.semi_minor_axis)
    (hcx : 0 < Real.cos x) (hcy : 0 < Real.cos y) : 0 < aCoef p x y := by
  have hk : 0 < p.semi_major_axis ^ 2 / p.semi_minor_axis ^ 2 := by positivity
  rw [aCoef]
  nlinarith [sq_nonneg (Real.sin x),
    mul_pos (pow_pos hcx 2) (pow_pos hcy 2),
    mul_nonneg (sq_nonneg (Real.cos x)) (mul_nonneg hk.le (sq_nonneg (Real.sin y)))]

theorem cCoef_pos (p : GoesImagerProjection)
    (hre : 0 < p.semi_major_axis) (hh : 0 < p.perspective_point_height) :
    0 < cCoef p := by
  rw [cCoef, Hof]
  nlinarith

theorem bCoef_neg (p : GoesImagerProjection) (x y : ℝ) (hH : 0 < Hof p)
    (hcx : 0 < Real.cos x) (hcy : 0 < Real.cos y) : bCoef p x y < 0 := by
  rw [bCoef]
  nlinarith [mul_pos (mul_pos hH hcx) hcy]

theorem rsOf_pos (p : GoesImagerProjection) (x y : ℝ)
    (ha : 0 < aCoef p x y) (hc : 0 < cCoef p) (hb : bCoef p x y < 0)
    (hdisc : 0 ≤ bCoef p x y ^ 2 - 4 * aCoef p x y * cCoef p) :
    0 < rsOf p x y := by
  have hlt : bCoef p x y ^ 2 - 4 * aCoef p x y * cCoef p < bCoef p x y ^ 2 := by
    nlinarith
  have hsd := Real.sqrt_lt_sqrt hdisc hlt
  rw [Real.sqrt_sq_eq_abs, abs_of_neg hb] at hsd
  rw [rsOf]
  exact div_pos (by linarith) (by linarith)

theorem quadratic_root (p : GoesImagerProjection) (x y : ℝ)
    (ha : aCoef p x y ≠ 0)
    (hdisc : 0 ≤ bCoef p x y ^ 2 - 4 * aCoef p x y * cCoef p) :
    aCoef p x y * rsOf p x y ^ 2 + bCoef p x y * rsOf p x y + cCoef p = 0 := by
  have hs2 : Real.sqrt (bCoef p x y ^ 2 - 4 * aCoef p x y * cCoef p) ^ 2 =
      bCoef p x y ^ 2 - 4 * aCoef p x y * cCoef p := Real.sq_sqrt hdisc
  have hrs_eq : 2 * aCoef p x y * rsOf p x y =
      -bCoef p x y - Real.sqrt (bCoef p x y ^ 2 - 4 * aCoef p x y * cCoef p) := by
    rw [rsOf]
    field_simp
  have h4 : 4 * aCoef p x y *
      (aCoef p x y * rsOf p x y ^ 2 + bCoef p x y * rsOf p x y + cCoef p) = 0 := by
    linear_combination (2 * aCoef p x y * rsOf p x y + bCoef p x y -
      Real.sqrt (bCoef p x y ^ 2 - 4 * aCoef p x y * cCoef p)) * hrs_eq + hs2
  rcases mul_eq_zero.mp h4 with h0 | h0
  · exact absurd h0 (mul_ne_zero (by norm_num) ha)
  · exact h0

theorem ellipsoid_identity (p : GoesImagerProjection) (x y : ℝ)
    (ha : aCoef p x y ≠ 0)
    (hdisc : 0 ≤ bCoef p x y ^ 2 - 4 * aCoef p x y * cCoef p) :
    (Hof p - sxF p x y) ^ 2 + syF p x y ^ 2 +
        p.semi_major_axis ^ 2 / p.semi_minor_axis ^ 2 * szF p x y ^ 2 =
      p.semi_major_axis ^ 2 := by
  have h := quadratic_root p x y ha hdisc
  simp only [aCoef, bCoef, cCoef, Hof, sxF, syF, szF] at h ⊢
  linear_combination h

theorem u_pos (p : GoesImagerProjection) (x y : ℝ)
    (hre : 0 < p.semi_major_axis) (hrp : 0 < p.semi_minor_axis)
    (hH : 0 < Hof p)
    (hellip : (Hof p - sxF p x y) ^ 2 + syF p x y ^ 2 +
        p.semi_major_axis ^ 2 / p.semi_minor_axis ^ 2 * szF p x y ^ 2 =
      p.semi_major_axis ^ 2)
    (hvis : syF p x y ^ 2 +
        p.semi_major_axis ^ 2 / p.semi_minor_axis ^ 2 * szF p x y ^ 2 ≤
      Hof p * (Hof p - sxF p x y)) :
    0 < Hof p - sxF p x y := by
  have hk : 0 < p.semi_major_axis ^ 2 / p.semi_minor_axis ^ 2 := by positivity
  have hu0 : 0 ≤ Hof p - sxF p x y := by
    nlinarith [sq_nonneg (syF p x y),
      mul_nonneg hk.le (sq_nonneg (szF p x y))]
  rcases eq_or_lt_of_le hu0 with heq | hlt
  · exfalso
    rw [← heq] at hvis hellip
    nlinarith [pow_pos hre 2, sq_nonneg (syF p x y),
      mul_nonneg hk.le (sq_nonneg (szF p x y))]
  · exact hlt

theorem sVec_reconstruct (p : GoesImagerProjection) (u sy sz : ℝ)
    (hre : 0 < p.semi_major_axis) (hrp : 0 < p.semi_minor_axis) (hu : 0 < u)
    (hellip : u ^ 2 + sy ^ 2 +
        p.semi_major_axis ^ 2 / p.semi_minor_axis ^ 2 * sz ^ 2 =
      p.semi_major_axis ^ 2)
    (hpol : p.semi_minor_axis =
      p.semi_major_axis * Real.sqrt (1 - grs80Ecc ^ 2)) :
    sxI p (Real.arctan (p.semi_major_axis ^ 2 / p.semi_minor_axis ^ 2 *
        (sz / Real.sqrt (u ^ 2 + sy ^ 2))))
        (lambda0 p - Real.arctan (sy / u)) = Hof p - u ∧
    syI p (Real.arctan (p.semi_major_axis ^ 2 / p.semi_minor_axis ^ 2 *
        (sz / Real.sqrt (u ^ 2 + sy ^ 2))))
        (lambda0 p - Real.arctan (sy / u)) = sy ∧
    szI p (Real.arctan (p.semi_major_axis ^ 2 / p.semi_minor_axis ^ 2 *
        (sz / Real.sqrt (u ^ 2 + sy ^ 2)))) = sz := by
  have hrene : p.semi_major_axis ≠ 0 := ne_of_gt hre
  have hrpne : p.semi_minor_axis ≠ 0 := ne_of_gt hrp
  set ρ := Real.sqrt (u ^ 2 + sy ^ 2) with hρ
  have hρpos : 0 < ρ := Real.sqrt_pos.mpr (by nlinarith [sq_nonneg sy, pow_pos hu 2])
  have hρne : ρ ≠ 0 := ne_of_gt hρpos
  have hρsq : ρ ^ 2 = u ^ 2 + sy ^ 2 := Real.sq_sqrt (by positivity)
  set T := Real.sqrt (u ^ 2 + sy ^ 2 + sz ^ 2) with hT
  have hTpos : 0 < T :=
    Real.sqrt_pos.mpr (by nlinarith [sq_nonneg sy, sq_nonneg sz, pow_pos hu 2])
  have hTne : T ≠ 0 := ne_of_gt hTpos
  have hTsq : T ^ 2 = u ^ 2 + sy ^ 2 + sz ^ 2 := Real.sq_sqrt (by positivity)
  have hρT : ρ ^ 2 + sz ^ 2 = T ^ 2 := by rw [hρsq, hTsq]
  have hphi : phi_c p (Real.arctan (p.semi_major_axis ^ 2 /
      p.semi_minor_axis ^ 2 * (sz / ρ))) = Real.arctan (sz / ρ) := by
    rw [phi_c, Real.tan_arctan]
    congr 1
    field_simp
    ring
  have hcos : Real.cos (phi_c p (Real.arctan (p.semi_major_axis ^ 2 /
      p.semi_minor_axis ^ 2 * (sz / ρ)))) = ρ / T := by
    rw [hphi, cos_arctan_div ρ sz hρpos, hρT, Real.sqrt_sq hTpos.le]
  have hsin : Real.sin (phi_c p (Real.arctan (p.semi_major_axis ^ 2 /
      p.semi_minor_axis ^ 2 * (sz / ρ)))) = sz / T := by
    rw [hphi, sin_arctan_div ρ sz hρpos, hρT, Real.sqrt_sq hTpos.le]
  have hpol2 : p.semi_minor_axis ^ 2 =
      p.semi_major_axis ^ 2 * (1 - grs80Ecc ^ 2) := by
    rw [hpol, mul_pow, Real.sq_sqrt (by rw [grs80Ecc]; norm_num)]
  have h1 : ρ ^ 2 + p.semi_major_axis ^ 2 / p.semi_minor_axis ^ 2 * sz ^ 2 =
      p.semi_major_axis ^ 2 := by
    rw [hρsq]
    linarith [hellip]
  have h1' : ρ ^ 2 * p.semi_minor_axis ^ 2 + p.semi_major_axis ^ 2 * sz ^ 2 =
      p.semi_major_axis ^ 2 * p.semi_minor_axis ^ 2 := by
    field_simp at h1
    linarith [h1]
  have hellip2 : (1 - grs80Ecc ^ 2) * ρ ^ 2 + sz ^ 2 =
      p.semi_minor_axis ^ 2 := by
    have hgoal' : p.semi_major_axis ^ 2 *
        ((1 - grs80Ecc ^ 2) * ρ ^ 2 + sz ^ 2) =
        p.semi_major_axis ^ 2 * p.semi_minor_axis ^ 2 := by
      linear_combination h1' - ρ ^ 2 * hpol2
    exact mul_left_cancel₀ (pow_ne_zero 2 hrene) hgoal'
  have hrc : r_cOf p (Real.arctan (p.semi_major_axis ^ 2 /
      p.semi_minor_axis ^ 2 * (sz / ρ))) = T := by
    rw [r_cOf, hcos, div_pow]
    have hfrac : 1 - grs80Ecc ^ 2 * (ρ ^ 2 / T ^ 2) =
        p.semi_minor_axis ^ 2 / T ^ 2 := by
      rw [eq_div_iff (pow_ne_zero 2 hTne)]
      field_simp
      linarith [hellip2, hρT]
    rw [hfrac, Real.sqrt_div (sq_nonneg p.semi_minor_axis) (T ^ 2),
      Real.sqrt_sq hrp.le, Real.sqrt_sq hTpos.le]
    rw [div_div_eq_mul_div, mul_comm, mul_div_assoc, div_self hrpne, mul_one]
  have hsublon : lambda0 p - Real.arctan (sy / u) - lambda0 p =
      -Real.arctan (sy / u) := by ring
  have hcoslon : Real.cos (lambda0 p - Real.arctan (sy / u) - lambda0 p) =
      u / ρ := by
    rw [hsublon, Real.cos_neg, cos_arctan_div u sy hu, hρ]
  have hsinlon : Real.sin (lambda0 p - Real.arctan (sy / u) - lambda0 p) =
      -(sy / ρ) := by
    rw [hsublon, Real.sin_neg, sin_arctan_div u sy hu, hρ]
  refine ⟨?_, ?_, ?_⟩
  · rw [sxI, hrc, hcos, hcoslon]
    field_simp
  · rw [syI, hrc, hcos, hsinlon]
    field_simp
  · rw [szI, hrc, hsin]
    field_simp

/-- C1 (amended): for every projection-parameter set whose semi-axes are
consistent with the hard-coded GRS80 eccentricity
(`r_pol = r_eq * sqrt(1 - e^2)`) and every scan-angle pair `(x, y)` within
the visible disk (nonzero-cosine scan angles, nonnegative discriminant of
the line-of-sight quadratic, and the code's visibility inequality holding at
the forward image), applying the forward transform and then the inverse
transform (both with their default degree flags) returns exactly `(x, y)` —
in particular within 1e-9 radians. -/
theorem roundtrip_exact (p : GoesImagerProjection) (x y : ℝ)
    (hre : 0 < p.semi_major_axis) (hrp : 0 < p.semi_minor_axis)
    (hh : 0 < p.perspective_point_height)
    (hx : |x| < Real.pi / 2) (hy : |y| < Real.pi / 2)
    (hdisc : 0 ≤ bCoef p x y ^ 2 - 4 * aCoef p x y * cCoef p)
    (hvis : syF p x y ^ 2 + p.semi_major_axis ^ 2 / p.semi_minor_axis ^ 2 *
        szF p x y ^ 2 ≤ Hof p * (Hof p - sxF p x y))
    (hpol : p.semi_minor_axis =
      p.semi_major_axis * Real.sqrt (1 - grs80Ecc ^ 2)) :
    lat_lon_to_scan_angles (scan_angles_to_lat_lon x y p true).1
      (scan_angles_to_lat_lon x y p true).2 p true = Except.ok (x, y) := by
  obtain ⟨hx1, hx2⟩ := abs_lt.mp hx
  obtain ⟨hy1, hy2⟩ := abs_lt.mp hy
  have hcx : 0 < Real.cos x := Real.cos_pos_of_mem_Ioo ⟨hx1, hx2⟩
  have hcy : 0 < Real.cos y := Real.cos_pos_of_mem_Ioo ⟨hy1, hy2⟩
  have hH : 0 < Hof p := by rw [Hof]; linarith
  have ha := aCoef_pos p x y hre hrp hcx hcy
  have hc := cCoef_pos p hre hh
  have hb := bCoef_neg p x y hH hcx hcy
  have hrs := rsOf_pos p x y ha hc hb hdisc
  have hellip := ellipsoid_identity p x y ha.ne' hdisc
  have hu := u_pos p x y hre hrp hH hellip hvis
  obtain ⟨hsx_eq, hsy_eq, hsz_eq⟩ :=
    sVec_reconstruct p (Hof p - sxF p x y) (syF p x y) (szF p x y)
      hre hrp hu hellip hpol
  have hlatform : latRadF p x y =
      Real.arctan (p.semi_major_axis ^ 2 / p.semi_minor_axis ^ 2 *
        (szF p x y /
          Real.sqrt ((Hof p - sxF p x y) ^ 2 + syF p x y ^ 2))) := rfl
  have hlonform : lonRadF p x y =
      lambda0 p - Real.arctan (syF p x y / (Hof p - sxF p x y)) := rfl
  rw [show (scan_angles_to_lat_lon x y p true).1 =
      npDegrees (latRadF p x y) from rfl,
    show (scan_angles_to_lat_lon x y p true).2 =
      npDegrees (lonRadF p x y) from rfl,
    single_true_eq, npRadians_npDegrees, npRadians_npDegrees,
    hlatform, hlonform]
  have hnv : ¬ notVisible p
      (Real.arctan (p.semi_major_axis ^ 2 / p.semi_minor_axis ^ 2 *
        (szF p x y / Real.sqrt ((Hof p - sxF p x y) ^ 2 + syF p x y ^ 2))))
      (lambda0 p - Real.arctan (syF p x y / (Hof p - sxF p x y))) := by
    rw [notVisible, hsx_eq, hsy_eq, hsz_eq,
      show Hof p - (Hof p - (Hof p - sxF p x y)) = Hof p - sxF p x y from
        by ring]
    exact not_lt.mpr hvis
  rw [if_neg hnv]
  have hxval : xScanOf p
      (Real.arctan (p.semi_major_axis ^ 2 / p.semi_minor_axis ^ 2 *
        (szF p x y / Real.sqrt ((Hof p - sxF p x y) ^ 2 + syF p x y ^ 2))))
      (lambda0 p - Real.arctan (syF p x y / (Hof p - sxF p x y))) = x := by
    rw [xScanOf, hsx_eq, hsy_eq, hsz_eq,
      show Hof p - (Hof p - sxF p x y) = sxF p x y from by ring]
    have hmag : sxF p x y ^ 2 + syF p x y ^ 2 + szF p x y ^ 2 =
        rsOf p x y ^ 2 := by
      have h1 := Real.sin_sq_add_cos_sq x
      have h2 := Real.sin_sq_add_cos_sq y
      simp only [sxF, syF, szF]
      linear_combination (rsOf p x y ^ 2 * Real.cos x ^ 2) * h2 +
        rsOf p x y ^ 2 * h1
    rw [hmag, Real.sqrt_sq hrs.le]
    have harg : -syF p x y / rsOf p x y = Real.sin x := by
      rw [syF]
      field_simp
    rw [harg, Real.arcsin_sin hx1.le hx2.le]
  have hyval : yScanOf p
      (Real.arctan (p.semi_major_axis ^ 2 / p.semi_minor_axis ^ 2 *
        (szF p x y / Real.sqrt ((Hof p - sxF p x y) ^ 2 + syF p x y ^ 2))))
      (lambda0 p - Real.arctan (syF p x y / (Hof p - sxF p x y))) = y := by
    rw [yScanOf, hsx_eq, hsz_eq,
      show Hof p - (Hof p - sxF p x y) = sxF p x y from by ring]
    have harg : szF p x y / sxF p x y = Real.tan y := by
      rw [szF, sxF, Real.tan_eq_sin_div_cos]
      have hne : rsOf p x y * Real.cos x ≠ 0 := mul_ne_zero hrs.ne' hcx.ne'
      field_simp
      ring
    rw [harg, Real.arctan_tan hy1 hy2]
  rw [hxval, hyval]

theorem abs_sin_sub_sin_le (a b : ℝ) :
    |Real.sin a - Real.sin b| ≤ |a - b| := by
  rw [Real.sin_sub_sin, abs_mul, abs_mul]
  have h1 : |Real.sin ((a - b) / 2)| ≤ |(a - b) / 2| := Real.abs_sin_le_abs
  have h2 : |Real.cos ((a + b) / 2)| ≤ 1 := Real.abs_cos_le_one _
  have h3 : |(2 : ℝ)| = 2 := by norm_num
  calc |(2 : ℝ)| * |Real.sin ((a - b) / 2)| * |Real.cos ((a + b) / 2)|
      ≤ |(2 : ℝ)| * |(a - b) / 2| * 1 :=
        mul_le_mul (mul_le_mul le_rfl h1 (abs_nonneg _) (abs_nonneg _)) h2
          (abs_nonneg _) (by positivity)
    _ = |a - b| := by
        rw [h3, abs_div, h3]
        ring

set_option maxHeartbeats 1600000 in
theorem inverse_equator_bound (Q : ℝ) (hQ0 : 0 ≤ Q) (hQu : Q ≤ 0.282) :
    ¬ notVisible ⟨2, 1, 2, 0⟩ 0 (Real.arctan Q) ∧
    0 ≤ Real.sin (xScanOf ⟨2, 1, 2, 0⟩ 0 (Real.arctan Q)) ∧
    Real.sin (xScanOf ⟨2, 1, 2, 0⟩ 0 (Real.arctan Q)) ≤ 0.1 := by
  have hrc_val : r_cOf ⟨2, 1, 2, 0⟩ 0 = 1 / Real.sqrt (1 - grs80Ecc ^ 2) := by
    rw [r_cOf, phi_c_zero, Real.cos_zero, one_pow, mul_one]
  have hsl : (0.99 : ℝ) ≤ Real.sqrt (1 - grs80Ecc ^ 2) := by
    have h := Real.sqrt_le_sqrt
      (show ((0.99 : ℝ)) ^ 2 ≤ 1 - grs80Ecc ^ 2 by rw [grs80Ecc]; norm_num)
    rwa [Real.sqrt_sq (by norm_num)] at h
  have hsu : Real.sqrt (1 - grs80Ecc ^ 2) ≤ 1 :=
    Real.sqrt_le_one.mpr (by rw [grs80Ecc]; norm_num)
  have hspos : (0 : ℝ) < Real.sqrt (1 - grs80Ecc ^ 2) := by linarith
  have hrcl : 1 ≤ r_cOf ⟨2, 1, 2, 0⟩ 0 := by
    rw [hrc_val, le_div_iff₀ hspos]
    linarith
  have hrcu : r_cOf ⟨2, 1, 2, 0⟩ 0 ≤ 1.02 := by
    rw [hrc_val, div_le_iff₀ hspos]
    nlinarith
  have hsinA_nn : 0 ≤ Real.sin (Real.arctan Q) := by
    rw [Real.sin_arctan]
    exact div_nonneg hQ0 (Real.sqrt_nonneg _)
  have hsinA_le : Real.sin (Real.arctan Q) ≤ Q := by
    rw [Real.sin_arctan]
    apply div_le_self hQ0
    have h := Real.sqrt_le_sqrt (show (1 : ℝ) ^ 2 ≤ 1 + Q ^ 2 by nlinarith)
    rwa [Real.sqrt_sq (by norm_num)] at h
  have hcosA_nn : 0 ≤ Real.cos (Real.arctan Q) := (Real.cos_arctan_pos Q).le
  have hcosA_le : Real.cos (Real.arctan Q) ≤ 1 := Real.cos_le_one _
  have hcosA_lb : (0.9 : ℝ) ≤ Real.cos (Real.arctan Q) := by
    rw [Real.cos_arctan]
    have hub : Real.sqrt (1 + Q ^ 2) ≤ 1.1 := by
      have h := Real.sqrt_le_sqrt (show 1 + Q ^ 2 ≤ (1.1 : ℝ) ^ 2 by nlinarith)
      rwa [Real.sqrt_sq (by norm_num)] at h
    have hpos : (0 : ℝ) < Real.sqrt (1 + Q ^ 2) :=
      Real.sqrt_pos.mpr (by nlinarith)
    rw [le_div_iff₀ hpos]
    nlinarith
  have hlam : lambda0 ⟨2, 1, 2, 0⟩ = 0 := by
    rw [lambda0, npRadians]
    norm_num
  have hHof4 : Hof ⟨2, 1, 2, 0⟩ = 4 := by rw [Hof]; norm_num
  have hsxI : sxI ⟨2, 1, 2, 0⟩ 0 (Real.arctan Q) =
      4 - r_cOf ⟨2, 1, 2, 0⟩ 0 * Real.cos (Real.arctan Q) := by
    rw [sxI, phi_c_zero, Real.cos_zero, hlam, sub_zero, hHof4]
    ring
  have hsyI : syI ⟨2, 1, 2, 0⟩ 0 (Real.arctan Q) =
      -(r_cOf ⟨2, 1, 2, 0⟩ 0 * Real.sin (Real.arctan Q)) := by
    rw [syI, phi_c_zero, Real.cos_zero, hlam, sub_zero]
    ring
  have hszI : szI ⟨2, 1, 2, 0⟩ 0 = 0 := by
    rw [szI, phi_c_zero, Real.sin_zero, mul_zero]
  have hrcos : (0.9 : ℝ) ≤ r_cOf ⟨2, 1, 2, 0⟩ 0 * Real.cos (Real.arctan Q) := by
    nlinarith [mul_le_mul hrcl hcosA_lb (by norm_num) (by linarith)]
  have hrcosu : r_cOf ⟨2, 1, 2, 0⟩ 0 * Real.cos (Real.arctan Q) ≤ 1.02 := by
    nlinarith [mul_le_mul hrcu hcosA_le hcosA_nn (by norm_num : (0 : ℝ) ≤ 1.02)]
  have hrsin_nn : 0 ≤ r_cOf ⟨2, 1, 2, 0⟩ 0 * Real.sin (Real.arctan Q) :=
    mul_nonneg (by linarith) hsinA_nn
  have hrsin : r_cOf ⟨2, 1, 2, 0⟩ 0 * Real.sin (Real.arctan Q) ≤ 0.29 := by
    nlinarith [mul_le_mul hrcu (hsinA_le.trans hQu) hsinA_nn
      (by norm_num : (0 : ℝ) ≤ 1.02)]
  have hsxl : (2.9 : ℝ) ≤ sxI ⟨2, 1, 2, 0⟩ 0 (Real.arctan Q) := by
    rw [hsxI]
    linarith
  have hnotvis : ¬ notVisible ⟨2, 1, 2, 0⟩ 0 (Real.arctan Q) := by
    rw [notVisible, hsxI, hsyI, hszI, hHof4]
    intro hlt
    have hk4 : (⟨2, 1, 2, 0⟩ : GoesImagerProjection).semi_major_axis ^ 2 /
        (⟨2, 1, 2, 0⟩ : GoesImagerProjection).semi_minor_axis ^ 2 = 4 := by
      norm_num
    rw [hk4] at hlt
    nlinarith [hrcos, hrsin, hrsin_nn, mul_le_mul hrsin hrsin hrsin_nn
      (by norm_num : (0 : ℝ) ≤ 0.29)]
  have hD_lb : (2.9 : ℝ) ≤ Real.sqrt
      (sxI ⟨2, 1, 2, 0⟩ 0 (Real.arctan Q) ^ 2 +
        syI ⟨2, 1, 2, 0⟩ 0 (Real.arctan Q) ^ 2 + szI ⟨2, 1, 2, 0⟩ 0 ^ 2) := by
    have hmono := Real.sqrt_le_sqrt
      (show sxI ⟨2, 1, 2, 0⟩ 0 (Real.arctan Q) ^ 2 ≤
        sxI ⟨2, 1, 2, 0⟩ 0 (Real.arctan Q) ^ 2 +
          syI ⟨2, 1, 2, 0⟩ 0 (Real.arctan Q) ^ 2 + szI ⟨2, 1, 2, 0⟩ 0 ^ 2 by
        nlinarith [sq_nonneg (syI ⟨2, 1, 2, 0⟩ 0 (Real.arctan Q)),
          sq_nonneg (szI ⟨2, 1, 2, 0⟩ 0)])
    rw [Real.sqrt_sq (by linarith)] at hmono
    linarith
  have hnum_eq : -(syI ⟨2, 1, 2, 0⟩ 0 (Real.arctan Q)) =
      r_cOf ⟨2, 1, 2, 0⟩ 0 * Real.sin (Real.arctan Q) := by
    rw [hsyI]
    ring
  have hDpos : (0 : ℝ) < Real.sqrt
      (sxI ⟨2, 1, 2, 0⟩ 0 (Real.arctan Q) ^ 2 +
        syI ⟨2, 1, 2, 0⟩ 0 (Real.arctan Q) ^ 2 + szI ⟨2, 1, 2, 0⟩ 0 ^ 2) := by
    linarith
  have hVnn : 0 ≤ -(syI ⟨2, 1, 2, 0⟩ 0 (Real.arctan Q)) / Real.sqrt
      (sxI ⟨2, 1, 2, 0⟩ 0 (Real.arctan Q) ^ 2 +
        syI ⟨2, 1, 2, 0⟩ 0 (Real.arctan Q) ^ 2 + szI ⟨2, 1, 2, 0⟩ 0 ^ 2) := by
    apply div_nonneg _ (Real.sqrt_nonneg _)
    rw [hnum_eq]
    exact hrsin_nn
  have hVub : -(syI ⟨2, 1, 2, 0⟩ 0 (Real.arctan Q)) / Real.sqrt
      (sxI ⟨2, 1, 2, 0⟩ 0 (Real.arctan Q) ^ 2 +
        syI ⟨2, 1, 2, 0⟩ 0 (Real.arctan Q) ^ 2 + szI ⟨2, 1, 2, 0⟩ 0 ^ 2) ≤
      0.1 := by
    rw [div_le_iff₀ hDpos, hnum_eq]
    linarith
  have hm1 : (-1 : ℝ) ≤ -(syI ⟨2, 1, 2, 0⟩ 0 (Real.arctan Q)) / Real.sqrt
      (sxI ⟨2, 1, 2, 0⟩ 0 (Real.arctan Q) ^ 2 +
        syI ⟨2, 1, 2, 0⟩ 0 (Real.arctan Q) ^ 2 + szI ⟨2, 1, 2, 0⟩ 0 ^ 2) := by
    linarith
  have hm2 : -(syI ⟨2, 1, 2, 0⟩ 0 (Real.arctan Q)) / Real.sqrt
      (sxI ⟨2, 1, 2, 0⟩ 0 (Real.arctan Q) ^ 2 +
        syI ⟨2, 1, 2, 0⟩ 0 (Real.arctan Q) ^ 2 + szI ⟨2, 1, 2, 0⟩ 0 ^ 2) ≤
      1 := by
    linarith
  refine ⟨hnotvis, ?_, ?_⟩
  · rw [xScanOf, Real.sin_arcsin hm1 hm2]
    exact hVnn
  · rw [xScanOf, Real.sin_arcsin hm1 hm2]
    exact hVub

set_option maxHeartbeats 1600000 in
/-- C1 (counterexample): the round-trip property fails as stated for
arbitrary projection parameters.  At the parameter set with semi-major
axis 2, semi-minor axis 1 (not related by the hard-coded GRS80
eccentricity), height 2, origin longitude 0, and the visible equatorial
scan angle `x = arcsin(1/4), y = 0`, the inverse of the forward transform
returns an x scan angle that differs from `arcsin(1/4)` by far more than
1e-9 radians, because the inverse reconstructs the point with the
GRS80-based geocentric radius instead of the supplied ellipsoid's. -/
theorem roundtrip_counterexample : ¬ roundtripClaim := by
  intro hclaim
  have hsinX : Real.sin (Real.arcsin (1 / 4)) = 1 / 4 :=
    Real.sin_arcsin (by norm_num) (by norm_num)
  have hcos2 : Real.cos (Real.arcsin (1 / 4)) ^ 2 = 15 / 16 := by
    rw [Real.cos_arcsin, Real.sq_sqrt (by norm_num)]
    norm_num
  have hcospos : 0 < Real.cos (Real.arcsin (1 / 4)) := by
    rw [Real.cos_arcsin]
    apply Real.sqrt_pos.mpr
    norm_num
  have hcl : (0.96 : ℝ) ≤ Real.cos (Real.arcsin (1 / 4)) := by nlinarith
  have hcu : Real.cos (Real.arcsin (1 / 4)) ≤ 0.97 := by nlinarith
  have hHof4 : Hof ⟨2, 1, 2, 0⟩ = 4 := by rw [Hof]; norm_num
  have hlam : lambda0 ⟨2, 1, 2, 0⟩ = 0 := by
    rw [lambda0, npRadians]
    norm_num
  have ha0 : aCoef ⟨2, 1, 2, 0⟩ (Real.arcsin (1 / 4)) 0 = 1 := by
    rw [aCoef]
    simp
  have hb0 : bCoef ⟨2, 1, 2, 0⟩ (Real.arcsin (1 / 4)) 0 =
      -8 * Real.cos (Real.arcsin (1 / 4)) := by
    rw [bCoef, hHof4, Real.cos_zero]
    ring
  have hc0 : cCoef ⟨2, 1, 2, 0⟩ = 12 := by
    rw [cCoef, hHof4]
    norm_num
  have hd0 : bCoef ⟨2, 1, 2, 0⟩ (Real.arcsin (1 / 4)) 0 ^ 2 -
      4 * aCoef ⟨2, 1, 2, 0⟩ (Real.arcsin (1 / 4)) 0 * cCoef ⟨2, 1, 2, 0⟩ =
      12 := by
    rw [hb0, ha0, hc0]
    linear_combination 64 * hcos2
  have hs12l : (3.46 : ℝ) ≤ Real.sqrt 12 := by
    have h := Real.sqrt_le_sqrt (show ((3.46 : ℝ)) ^ 2 ≤ 12 by norm_num)
    rwa [Real.sqrt_sq (by norm_num)] at h
  have hs12u : Real.sqrt 12 ≤ 3.47 := by
    have h := Real.sqrt_le_sqrt (show (12 : ℝ) ≤ (3.47 : ℝ) ^ 2 by norm_num)
    rwa [Real.sqrt_sq (by norm_num)] at h
  have hrs_eq : rsOf ⟨2, 1, 2, 0⟩ (Real.arcsin (1 / 4)) 0 =
      (8 * Real.cos (Real.arcsin (1 / 4)) - Real.sqrt 12) / 2 := by
    rw [rsOf, hd0, hb0, ha0]
    ring
  have hrsl : (2.1 : ℝ) ≤ rsOf ⟨2, 1, 2, 0⟩ (Real.arcsin (1 / 4)) 0 := by
    rw [hrs_eq]
    linarith
  have hrsu : rsOf ⟨2, 1, 2, 0⟩ (Real.arcsin (1 / 4)) 0 ≤ 2.15 := by
    rw [hrs_eq]
    linarith
  have hsxF0 : sxF ⟨2, 1, 2, 0⟩ (Real.arcsin (1 / 4)) 0 =
      rsOf ⟨2, 1, 2, 0⟩ (Real.arcsin (1 / 4)) 0 *
        Real.cos (Real.arcsin (1 / 4)) := by
    rw [sxF]
    simp
  have hsyF0 : syF ⟨2, 1, 2, 0⟩ (Real.arcsin (1 / 4)) 0 =
      -(rsOf ⟨2, 1, 2, 0⟩ (Real.arcsin (1 / 4)) 0 * (1 / 4)) := by
    rw [syF, hsinX]
    ring
  have hszF0 : szF ⟨2, 1, 2, 0⟩ (Real.arcsin (1 / 4)) 0 = 0 := by
    rw [szF]
    simp
  have hprod_ub : rsOf ⟨2, 1, 2, 0⟩ (Real.arcsin (1 / 4)) 0 *
      Real.cos (Real.arcsin (1 / 4)) ≤ 2.09 := by
    nlinarith [mul_le_mul hrsu hcu (by linarith) (by norm_num : (0 : ℝ) ≤ 2.15)]
  have hprod_lb : (2.01 : ℝ) ≤ rsOf ⟨2, 1, 2, 0⟩ (Real.arcsin (1 / 4)) 0 *
      Real.cos (Real.arcsin (1 / 4)) := by
    nlinarith [mul_le_mul hrsl hcl (by norm_num) (by linarith :
      (0 : ℝ) ≤ rsOf ⟨2, 1, 2, 0⟩ (Real.arcsin (1 / 4)) 0)]
  have hXb : |Real.arcsin (1 / 4)| < Real.pi / 2 := by
    rw [abs_lt]
    exact ⟨Real.neg_pi_div_two_lt_arcsin.mpr (by norm_num),
      Real.arcsin_lt_pi_div_two.mpr (by norm_num)⟩
  have hYb : |(0 : ℝ)| < Real.pi / 2 := by
    rw [abs_zero]
    positivity
  have hdiscpos : 0 ≤ bCoef ⟨2, 1, 2, 0⟩ (Real.arcsin (1 / 4)) 0 ^ 2 -
      4 * aCoef ⟨2, 1, 2, 0⟩ (Real.arcsin (1 / 4)) 0 * cCoef ⟨2, 1, 2, 0⟩ := by
    rw [hd0]
    norm_num
  have hvis0 : syF ⟨2, 1, 2, 0⟩ (Real.arcsin (1 / 4)) 0 ^ 2 +
      (⟨2, 1, 2, 0⟩ : GoesImagerProjection).semi_major_axis ^ 2 /
        (⟨2, 1, 2, 0⟩ : GoesImagerProjection).semi_minor_axis ^ 2 *
        szF ⟨2, 1, 2, 0⟩ (Real.arcsin (1 / 4)) 0 ^ 2 ≤
      Hof ⟨2, 1, 2, 0⟩ *
        (Hof ⟨2, 1, 2, 0⟩ - sxF ⟨2, 1, 2, 0⟩ (Real.arcsin (1 / 4)) 0) := by
    rw [hsyF0, hszF0, hsxF0, hHof4]
    have hk4 : (⟨2, 1, 2, 0⟩ : GoesImagerProjection).semi_major_axis ^ 2 /
        (⟨2, 1, 2, 0⟩ : GoesImagerProjection).semi_minor_axis ^ 2 = 4 := by
      norm_num
    rw [hk4]
    nlinarith [mul_le_mul hrsu hrsu (by linarith) (by norm_num : (0 : ℝ) ≤ 2.15)]
  have himpl := hclaim ⟨2, 1, 2, 0⟩ (Real.arcsin (1 / 4)) 0 (by norm_num)
    (by norm_num) (by norm_num) hXb hYb hdiscpos hvis0
  have hlat0 : latRadF ⟨2, 1, 2, 0⟩ (Real.arcsin (1 / 4)) 0 = 0 := by
    rw [latRadF, hszF0]
    simp
  have hden_pos : (0 : ℝ) < 4 - rsOf ⟨2, 1, 2, 0⟩ (Real.arcsin (1 / 4)) 0 *
      Real.cos (Real.arcsin (1 / 4)) := by linarith
  have hlon0 : lonRadF ⟨2, 1, 2, 0⟩ (Real.arcsin (1 / 4)) 0 =
      Real.arctan (rsOf ⟨2, 1, 2, 0⟩ (Real.arcsin (1 / 4)) 0 * (1 / 4) /
        (4 - rsOf ⟨2, 1, 2, 0⟩ (Real.arcsin (1 / 4)) 0 *
          Real.cos (Real.arcsin (1 / 4)))) := by
    rw [lonRadF, hlam, hsyF0, hsxF0, hHof4]
    rw [show -(rsOf ⟨2, 1, 2, 0⟩ (Real.arcsin (1 / 4)) 0 * (1 / 4)) /
        (4 - rsOf ⟨2, 1, 2, 0⟩ (Real.arcsin (1 / 4)) 0 *
          Real.cos (Real.arcsin (1 / 4))) =
        -(rsOf ⟨2, 1, 2, 0⟩ (Real.arcsin (1 / 4)) 0 * (1 / 4) /
          (4 - rsOf ⟨2, 1, 2, 0⟩ (Real.arcsin (1 / 4)) 0 *
            Real.cos (Real.arcsin (1 / 4)))) from neg_div _ _]
    rw [Real.arctan_neg]
    ring
  have hQ0 : 0 ≤ rsOf ⟨2, 1, 2, 0⟩ (Real.arcsin (1 / 4)) 0 * (1 / 4) /
      (4 - rsOf ⟨2, 1, 2, 0⟩ (Real.arcsin (1 / 4)) 0 *
        Real.cos (Real.arcsin (1 / 4))) :=
    div_nonneg (by linarith) (by linarith)
  have hQu : rsOf ⟨2, 1, 2, 0⟩ (Real.arcsin (1 / 4)) 0 * (1 / 4) /
      (4 - rsOf ⟨2, 1, 2, 0⟩ (Real.arcsin (1 / 4)) 0 *
        Real.cos (Real.arcsin (1 / 4))) ≤ 0.282 := by
    rw [div_le_iff₀ hden_pos]
    nlinarith
  obtain ⟨hnotvis, hsin_nn, hsin_ub⟩ := inverse_equator_bound _ hQ0 hQu
  have hok : lat_lon_to_scan_angles
      (scan_angles_to_lat_lon (Real.arcsin (1 / 4)) 0 ⟨2, 1, 2, 0⟩ true).1
      (scan_angles_to_lat_lon (Real.arcsin (1 / 4)) 0 ⟨2, 1, 2, 0⟩ true).2
      ⟨2, 1, 2, 0⟩ true =
      Except.ok (xScanOf ⟨2, 1, 2, 0⟩ 0
        (Real.arctan (rsOf ⟨2, 1, 2, 0⟩ (Real.arcsin (1 / 4)) 0 * (1 / 4) /
          (4 - rsOf ⟨2, 1, 2, 0⟩ (Real.arcsin (1 / 4)) 0 *
            Real.cos (Real.arcsin (1 / 4))))),
        yScanOf ⟨2, 1, 2, 0⟩ 0
        (Real.arctan (rsOf ⟨2, 1, 2, 0⟩ (Real.arcsin (1 / 4)) 0 * (1 / 4) /
          (4 - rsOf ⟨2, 1, 2, 0⟩ (Real.arcsin (1 / 4)) 0 *
            Real.cos (Real.arcsin (1 / 4)))))) := by
    rw [show (scan_angles_to_lat_lon (Real.arcsin (1 / 4)) 0
        ⟨2, 1, 2, 0⟩ true).1 =
        npDegrees (latRadF ⟨2, 1, 2, 0⟩ (Real.arcsin (1 / 4)) 0) from rfl,
      show (scan_angles_to_lat_lon (Real.arcsin (1 / 4)) 0
        ⟨2, 1, 2, 0⟩ true).2 =
        npDegrees (lonRadF ⟨2, 1, 2, 0⟩ (Real.arcsin (1 / 4)) 0) from rfl,
      single_true_eq, npRadians_npDegrees, npRadians_npDegrees, hlat0, hlon0,
      if_neg hnotvis]
  have habs := (himpl _ _ hok).1
  have hlips := abs_sin_sub_sin_le
    (xScanOf ⟨2, 1, 2, 0⟩ 0
      (Real.arctan (rsOf ⟨2, 1, 2, 0⟩ (Real.arcsin (1 / 4)) 0 * (1 / 4) /
        (4 - rsOf ⟨2, 1, 2, 0⟩ (Real.arcsin (1 / 4)) 0 *
          Real.cos (Real.arcsin (1 / 4))))))
    (Real.arcsin (1 / 4))
  rw [hsinX] at hlips
  have hgap : (0.15 : ℝ) ≤ |Real.sin (xScanOf ⟨2, 1, 2, 0⟩ 0
      (Real.arctan (rsOf ⟨2, 1, 2, 0⟩ (Real.arcsin (1 / 4)) 0 * (1 / 4) /
        (4 - rsOf ⟨2, 1, 2, 0⟩ (Real.arcsin (1 / 4)) 0 *
          Real.cos (Real.arcsin (1 / 4)))))) - 1 / 4| := by
    rw [abs_of_nonpos (by linarith)]
    linarith
  have hfalse : (0.15 : ℝ) ≤ 1 / 10 ^ 9 := by linarith
  norm_num at hfalse

set_option maxHeartbeats 800000 in
theorem roundtrip_exact_witness :
    ((0 : ℝ) < (⟨1, Real.sqrt (1 - grs80Ecc ^ 2), 1, 0⟩ :
        GoesImagerProjection).semi_major_axis ∧
      (0 : ℝ) < (⟨1, Real.sqrt (1 - grs80Ecc ^ 2), 1, 0⟩ :
        GoesImagerProjection).semi_minor_axis ∧
      (0 : ℝ) < (⟨1, Real.sqrt (1 - grs80Ecc ^ 2), 1, 0⟩ :
        GoesImagerProjection).perspective_point_height ∧
      |(0 : ℝ)| < Real.pi / 2 ∧
      0 ≤ bCoef ⟨1, Real.sqrt (1 - grs80Ecc ^ 2), 1, 0⟩ 0 0 ^ 2 -
        4 * aCoef ⟨1, Real.sqrt (1 - grs80Ecc ^ 2), 1, 0⟩ 0 0 *
          cCoef ⟨1, Real.sqrt (1 - grs80Ecc ^ 2), 1, 0⟩ ∧
      (⟨1, Real.sqrt (1 - grs80Ecc ^ 2), 1, 0⟩ :
        GoesImagerProjection).semi_minor_axis =
        (⟨1, Real.sqrt (1 - grs80Ecc ^ 2), 1, 0⟩ :
          GoesImagerProjection).semi_major_axis *
          Real.sqrt (1 - grs80Ecc ^ 2)) ∧
    lat_lon_to_scan_angles
      (scan_angles_to_lat_lon 0 0 ⟨1, Real.sqrt (1 - grs80Ecc ^ 2), 1, 0⟩
        true).1
      (scan_angles_to_lat_lon 0 0 ⟨1, Real.sqrt (1 - grs80Ecc ^ 2), 1, 0⟩
        true).2
      ⟨1, Real.sqrt (1 - grs80Ecc ^ 2), 1, 0⟩ true = Except.ok (0, 0) := by
  have hre : (0 : ℝ) < 1 := by norm_num
  have hrp : (0 : ℝ) < Real.sqrt (1 - grs80Ecc ^ 2) :=
    Real.sqrt_pos.mpr (by rw [grs80Ecc]; norm_num)
  have hzb : |(0 : ℝ)| < Real.pi / 2 := by
    rw [abs_zero]
    positivity
  have hH2 : Hof ⟨1, Real.sqrt (1 - grs80Ecc ^ 2), 1, 0⟩ = 2 := by
    rw [Hof]
    norm_num
  have ha0 : aCoef ⟨1, Real.sqrt (1 - grs80Ecc ^ 2), 1, 0⟩ 0 0 = 1 := by
    rw [aCoef]
    simp
  have hb0 : bCoef ⟨1, Real.sqrt (1 - grs80Ecc ^ 2), 1, 0⟩ 0 0 = -4 := by
    rw [bCoef, hH2, Real.cos_zero]
    ring
  have hc0 : cCoef ⟨1, Real.sqrt (1 - grs80Ecc ^ 2), 1, 0⟩ = 3 := by
    rw [cCoef, hH2]
    norm_num
  have hd0 : bCoef ⟨1, Real.sqrt (1 - grs80Ecc ^ 2), 1, 0⟩ 0 0 ^ 2 -
      4 * aCoef ⟨1, Real.sqrt (1 - grs80Ecc ^ 2), 1, 0⟩ 0 0 *
        cCoef ⟨1, Real.sqrt (1 - grs80Ecc ^ 2), 1, 0⟩ = 4 := by
    rw [hb0, ha0, hc0]
    norm_num
  have hdisc : 0 ≤ bCoef ⟨1, Real.sqrt (1 - grs80Ecc ^ 2), 1, 0⟩ 0 0 ^ 2 -
      4 * aCoef ⟨1, Real.sqrt (1 - grs80Ecc ^ 2), 1, 0⟩ 0 0 *
        cCoef ⟨1, Real.sqrt (1 - grs80Ecc ^ 2), 1, 0⟩ := by
    rw [hd0]
    norm_num
  have hs4 : Real.sqrt 4 = 2 := by
    rw [show (4 : ℝ) = 2 ^ 2 by norm_num, Real.sqrt_sq (by norm_num)]
  have hrs0 : rsOf ⟨1, Real.sqrt (1 - grs80Ecc ^ 2), 1, 0⟩ 0 0 = 1 := by
    rw [rsOf, hd0, hb0, ha0, hs4]
    norm_num
  have hsx0 : sxF ⟨1, Real.sqrt (1 - grs80Ecc ^ 2), 1, 0⟩ 0 0 = 1 := by
    rw [sxF, hrs0]
    simp
  have hsy0 : syF ⟨1, Real.sqrt (1 - grs80Ecc ^ 2), 1, 0⟩ 0 0 = 0 := by
    rw [syF]
    simp
  have hsz0 : szF ⟨1, Real.sqrt (1 - grs80Ecc ^ 2), 1, 0⟩ 0 0 = 0 := by
    rw [szF]
    simp
  have hvis : syF ⟨1, Real.sqrt (1 - grs80Ecc ^ 2), 1, 0⟩ 0 0 ^ 2 +
      (⟨1, Real.sqrt (1 - grs80Ecc ^ 2), 1, 0⟩ :
        GoesImagerProjection).semi_major_axis ^ 2 /
        (⟨1, Real.sqrt (1 - grs80Ecc ^ 2), 1, 0⟩ :
          GoesImagerProjection).semi_minor_axis ^ 2 *
        szF ⟨1, Real.sqrt (1 - grs80Ecc ^ 2), 1, 0⟩ 0 0 ^ 2 ≤
      Hof ⟨1, Real.sqrt (1 - grs80Ecc ^ 2), 1, 0⟩ *
        (Hof ⟨1, Real.sqrt (1 - grs80Ecc ^ 2), 1, 0⟩ -
          sxF ⟨1, Real.sqrt (1 - grs80Ecc ^ 2), 1, 0⟩ 0 0) := by
    rw [hsy0, hsz0, hsx0, hH2]
    norm_num
  have hpol : (⟨1, Real.sqrt (1 - grs80Ecc ^ 2), 1, 0⟩ :
      GoesImagerProjection).semi_minor_axis =
      (⟨1, Real.sqrt (1 - grs80Ecc ^ 2), 1, 0⟩ :
        GoesImagerProjection).semi_major_axis *
        Real.sqrt (1 - grs80Ecc ^ 2) := by
    show Real.sqrt (1 - grs80Ecc ^ 2) = 1 * Real.sqrt (1 - grs80Ecc ^ 2)
    rw [one_mul]
  exact ⟨⟨hre, hrp, hre, hzb, hdisc, hpol⟩,
    roundtrip_exact ⟨1, Real.sqrt (1 - grs80Ecc ^ 2), 1, 0⟩ 0 0 hre hrp hre
      hzb hzb hdisc hvis hpol⟩
